import Mathlib

/-!
# ViSP: target-motion compensation servo loop, meter/pixel conversion

A shallow embedding of

* `example/servo-afma4/servoAfma4Point2DCamVelocityKalman.cpp` (`main`),
* `src/servo/vpServo.h` (the `kill()` contract of `vpServo`),
* `src/camera/vpMeterPixelConversion.h` (`convertPoint`).

Scalars (`double` in the source) are elements of an arbitrary field `R`, so the
statements are about exact arithmetic; vectors of size `n` are functions
`Fin n → R` and matrices are `Matrix (Fin m) (Fin n) R`.  The loop counter
`int iter` is a natural number (signed overflow of the counter is not modelled).

The classes whose bodies are not part of the sources at hand (the robot, the
frame grabber, the dot tracker, the body of `vpServo::computeControlLaw`, the
Kalman filter) are external: what they return in an iteration is an input of
that iteration.
-/

namespace Visp

/-! ## Data model -/

/-- The type `typedef enum { K_NONE, K_VELOCITY, K_ACCELERATION } KalmanType`.  The value
is produced by `(KalmanType) atoi(optarg)`, so it is an integer that need not
be one of the three enumerators. -/
abbrev KalmanType := Int

/-- Enumerator `K_NONE`. -/
def K_NONE : KalmanType := 0

/-- Enumerator `K_VELOCITY`. -/
def K_VELOCITY : KalmanType := 1

/-- Enumerator `K_ACCELERATION`. -/
def K_ACCELERATION : KalmanType := 2

/-- The declaration `int nsignal = 2; // The two values of dedt`. -/
abbrev nsignal : Nat := 2

/-- The declaration `int opt_cam_frequency = 60; // 60 Hz`. -/
def opt_cam_frequency : Nat := 60

/-- The two state models of `vpLinearKalmanFilterInstantiation` the example selects. -/
inductive StateModel where
  | stateConstVelWithColoredNoise_MeasureVel
  | stateConstAccWithColoredNoise_MeasureVel
  deriving DecidableEq, Repr

/-- The operations of `vpLinearKalmanFilterInstantiation` used by the example.
The class is not among the sources, so its operations are parameters: `K` is
the type of the filter object, `Xest` its public estimate vector. -/
structure KalmanOps (R : Type) (K : Type) where
  /-- default construction: `vpLinearKalmanFilterInstantiation kalman;` -/
  fresh : K
  /-- Source: `kalman.setStateModel(model)` -/
  setStateModel : K → StateModel → K
  /-- Source: `kalman.getStateSize()` -/
  getStateSize : K → Nat
  /-- Source: `kalman.initFilter(nsignal, sigma_state, sigma_measure, rho, dt)` -/
  initFilter : K → Nat → List R → List R → R → R → K
  /-- Source: `kalman.filter(z)` -/
  filter : K → (Fin nsignal → R) → K
  /-- Source: `kalman.Xest` -/
  Xest : K → List R

/-- The public members of `vpServo` (vpServo.h) the example reads, together with
the private flag `taskWasKilled`. -/
structure ServoTask (R : Type) where
  /-- Source: `vpColVector error` -/
  error : Fin 2 → R
  /-- Source: `vpMatrix J1`: task Jacobian -/
  J1 : Matrix (Fin 2) (Fin 6) R
  /-- Source: `vpMatrix J1p`: pseudo inverse of the Jacobian -/
  J1p : Matrix (Fin 6) (Fin 2) R
  /-- Source: `bool taskWasKilled` -/
  taskWasKilled : Bool

/-- What one call of `task.computeControlLaw()` computes: the returned velocity
and the values it leaves in `task.error`, `task.J1` and `task.J1p`. -/
structure ControlLaw (R : Type) where
  v1 : Fin 6 → R
  error : Fin 2 → R
  J1 : Matrix (Fin 2) (Fin 6) R
  J1p : Matrix (Fin 6) (Fin 2) R

/-- Modelled from the spec: the body of `vpServo::computeControlLaw()` is in
vpServo.cpp, which is not among the sources.  Per the spec (4.2) the call
assembles the error, computes the task Jacobian `J1` and its inverse `J1p`,
stores them in the task and returns the primary velocity; the numerical values
are taken from `c`. -/
def computeControlLaw {R : Type} (task : ServoTask R) (c : ControlLaw R) :
    ServoTask R × (Fin 6 → R) :=
  ({ task with error := c.error, J1 := c.J1, J1p := c.J1p }, c.v1)

/-- What the external collaborators deliver during one loop iteration. -/
structure IterInput (R : Type) where
  /-- Source: `vpTime::measureTimeMs()` at the top of the iteration -/
  t_0 : R
  /-- Source: `robot.getVelocity(vpRobot::CAMERA_FRAME)` -/
  vm : Fin 6 → R
  /-- Source: `dot.getCog().get_u()` after `dot.track(I)` -/
  cog_u : R
  /-- Source: `dot.getCog().get_v()` after `dot.track(I)` -/
  cog_v : R
  /-- results of this iteration's `task.computeControlLaw()` -/
  claw : ControlLaw R

/-- Values fixed before the loop starts. -/
structure LoopConfig (R : Type) where
  opt_kalman : KalmanType
  /-- Source: `int state_size` -/
  state_size : Nat
  /-- Source: `cam.get_u0()` -/
  u0 : R
  /-- Source: `cam.get_v0()` -/
  v0 : R

/-- The variables of `main` that live across loop iterations. -/
structure LoopState (R : Type) (K : Type) where
  iter : Nat
  t_1 : R
  Tv_0 : R
  err_0 : Fin 2 → R
  err_1 : Fin 2 → R
  dedt_filt : Fin nsignal → R
  task : ServoTask R
  kalman : K

/-- Values computed by one iteration of the loop body. -/
structure IterOutput (R : Type) where
  Tv : R
  Tv_0 : R
  Tv_1 : R
  vm_0 : Fin 6 → R
  v1 : Fin 6 → R
  /-- the divisor `Tv_1` of the division of line 438, when that statement is
  executed in this iteration -/
  divisor : Option R
  dedt_mes : Fin nsignal → R
  /-- the argument of `kalman.filter(...)` when the filter is invoked -/
  filterArg : Option (Fin nsignal → R)
  dedt_filt : Fin nsignal → R
  v2 : Fin 6 → R
  v : Fin 6 → R
  /-- the argument of `robot.setVelocity(vpRobot::CAMERA_FRAME, v)` -/
  command : Fin 6 → R
  /-- the values written to `flog` before `std::endl`, in order -/
  record : List R

/-! ## The loop body -/

/-- The extraction loop
`for (int i=0; i < nsignal; i++) dedt_filt[i] = kalman.Xest[i*state_size];`
run on the vector `d`. -/
def extractFiltered {R : Type} [Zero R] (Xest : List R) (state_size : Nat)
    (d : Fin nsignal → R) : Fin nsignal → R :=
  (List.finRange nsignal).foldl
    (fun acc i => Function.update acc i (Xest.getD (i.val * state_size) 0)) d

/-- The `switch(opt_kalman)` inside the loop (lines 449-460): returns the filter
object, `dedt_filt`, and the argument given to `kalman.filter` if it is called. -/
def kalmanSwitch {R K : Type} [Zero R] (ops : KalmanOps R K) (cfg : LoopConfig R)
    (kalman : K) (dedt_mes dedt_filt : Fin nsignal → R) :
    K × (Fin nsignal → R) × Option (Fin nsignal → R) :=
  if cfg.opt_kalman = K_NONE then
    (kalman, 0, none)
  else if cfg.opt_kalman = K_VELOCITY ∨ cfg.opt_kalman = K_ACCELERATION then
    let kalman' := ops.filter kalman dedt_mes
    (kalman', extractFiltered (ops.Xest kalman') cfg.state_size dedt_filt, some dedt_mes)
  else
    (kalman, dedt_filt, none)

/-- One pass through the body of `while(1)` (lines 387-510) when no call throws. -/
def loopBody {R K : Type} [Field R] (ops : KalmanOps R K) (cfg : LoopConfig R)
    (st : LoopState R K) (inp : IterInput R) : LoopState R K × IterOutput R :=
  let t_0 := inp.t_0
  let Tv := (t_0 - st.t_1) / 1000
  let t_1 := t_0
  let vm := inp.vm
  let vm_0 := vm
  let Tv_1 := st.Tv_0
  let Tv_0 := Tv
  let (task, v1) := computeControlLaw st.task inp.claw
  let err := task.error
  -- if (iter==0) { ... } else { ... }
  let err_0 : Fin 2 → R := if st.iter = 0 then 0 else err
  let err_1 : Fin 2 → R := if st.iter = 0 then 0 else st.err_0
  let dedt_mes : Fin nsignal → R :=
    if st.iter = 0 then 0
    else (fun i => (err_0 i - err_1 i) / Tv_1) - task.J1.mulVec vm_0
  let divisor : Option R := if st.iter = 0 then none else some Tv_1
  let dedt_filt : Fin nsignal → R := if st.iter = 0 then 0 else st.dedt_filt
  -- if (iter <= 1) dedt_mes = 0;
  let dedt_mes : Fin nsignal → R := if st.iter ≤ 1 then 0 else dedt_mes
  let (kalman, dedt_filt, filterArg) := kalmanSwitch ops cfg st.kalman dedt_mes dedt_filt
  let v2 := (-task.J1p).mulVec dedt_filt
  let v := v1 + v2
  let record : List R :=
    [Tv_0,
     v 0, v 1, v 2, v 3, v 4, v 5,
     task.error 0, task.error 1,
     inp.cog_u - cfg.u0, inp.cog_v - cfg.v0,
     dedt_mes 0, dedt_mes 1,
     dedt_filt 0, dedt_filt 1]
  ({ iter := st.iter + 1, t_1 := t_1, Tv_0 := Tv_0, err_0 := err_0, err_1 := err_1,
     dedt_filt := dedt_filt, task := task, kalman := kalman },
   { Tv := Tv, Tv_0 := Tv_0, Tv_1 := Tv_1, vm_0 := vm_0, v1 := v1,
     divisor := divisor, dedt_mes := dedt_mes, filterArg := filterArg, dedt_filt := dedt_filt,
     v2 := v2, v := v, command := v, record := record })

/-- The state of the loop variables when the loop is entered (lines 365-377):
`iter = 0`, `t_1` the time just measured, `Tv_0 = 0`; the vectors are
constructed filled with zeros. -/
def initState {R K : Type} [Field R] (t_init : R) (task : ServoTask R) (kalman : K) :
    LoopState R K :=
  { iter := 0, t_1 := t_init, Tv_0 := 0, err_0 := 0, err_1 := 0, dedt_filt := 0,
    task := task, kalman := kalman }

/-- State of the loop variables at the top of iteration `t`, for the stream
`ins` of per-iteration inputs. -/
def stateAt {R K : Type} [Field R] (ops : KalmanOps R K) (cfg : LoopConfig R)
    (st0 : LoopState R K) (ins : Nat → IterInput R) : Nat → LoopState R K
  | 0 => st0
  | t + 1 => (loopBody ops cfg (stateAt ops cfg st0 ins t) (ins t)).1

/-- Values computed by iteration `t`. -/
def outputAt {R K : Type} [Field R] (ops : KalmanOps R K) (cfg : LoopConfig R)
    (st0 : LoopState R K) (ins : Nat → IterInput R) (t : Nat) : IterOutput R :=
  (loopBody ops cfg (stateAt ops cfg st0 ins t) (ins t)).2

/-! ## The program `main`: control flow and observable events -/

/-- Modelled from the spec: `vpServo::init()` (vpServo.cpp, not among the
sources) as run by the constructor `vpServo() { init() ; }`: a fresh task has
not been killed; its matrices are empty (here: zero) until the first
`computeControlLaw()`. -/
def ServoTask.init {R : Type} [Zero R] : ServoTask R :=
  { error := 0, J1 := 0, J1p := 0, taskWasKilled := false }

/-- Modelled from the spec: `vpServo::kill()` (vpServo.cpp, not among the
sources) marks the task as killed (spec 4.2: "marks the Task as killed"). -/
def ServoTask.kill {R : Type} (task : ServoTask R) : ServoTask R :=
  { task with taskWasKilled := true }

/-- Modelled from the spec: the destructor `~vpServo()` (vpServo.cpp, not among
the sources).  Per the class documentation in vpServo.h the destructor launches
`vpServoException::notKilledProperly` unless `kill()` was called; the result
tells whether that signal is raised. -/
def ServoTask.destructorRaises {R : Type} (task : ServoTask R) : Bool :=
  !task.taskWasKilled

/-- The calls of `main` that are observable on the actuator, the task, the
filter and the log. -/
inductive Event (R : Type) where
  /-- Source: `getOptions(...)` returned the given value -/
  | getOptions (ok : Bool)
  /-- Source: `vpIoTools::makeDirectory(logdirname)` -/
  | makeDirectory
  /-- Source: `std::ofstream flog(logfilename.c_str())` -/
  | openLog
  /-- Source: `vpServo task ;` -/
  | constructTask
  /-- Source: `robot.setRobotState(vpRobot::STATE_VELOCITY_CONTROL)` -/
  | setRobotState
  /-- Source: `task.computeControlLaw()` returned -/
  | controlLaw
  /-- Source: `kalman.filter(z)` -/
  | kalmanFilter (z : Fin nsignal → R)
  /-- Source: `robot.setVelocity(vpRobot::CAMERA_FRAME, v)` -/
  | setVelocity (v : Fin 6 → R)
  /-- one line written to `flog` -/
  | logRecord (r : List R)
  /-- the objects declared inside the `try` block (image, grabber, display,
  dot, robot, camera, features, filter) go out of scope; what their
  destructors do, in particular what the destructor of the robot object does
  to the actuator, is not in the sources and is left open -/
  | destroyTryLocals
  /-- Source: `flog.close()` -/
  | flogClose
  /-- Source: `task.print()` -/
  | taskPrint
  /-- Source: `task.kill()` -/
  | kill
  /-- Source: `vpERROR_TRACE(" Test failed")` -/
  | errorTrace
  /-- Source: `~vpServo()` runs on `task`; the flag tells whether it raises
  `notKilledProperly` -/
  | destroyTask (notKilledProperly : Bool)

/-- The event is `task.kill()`. -/
def Event.isKill {R : Type} : Event R → Bool
  | .kill => true
  | _ => false

/-- The event is the construction of the task. -/
def Event.isConstructTask {R : Type} : Event R → Bool
  | .constructTask => true
  | _ => false

/-- The event is a destruction of the task that raises `notKilledProperly`. -/
def Event.isMisuse {R : Type} : Event R → Bool
  | .destroyTask b => b
  | _ => false

/-- The event is a destruction of the task. -/
def Event.isDestroyTask {R : Type} : Event R → Bool
  | .destroyTask _ => true
  | _ => false

/-- The arguments of the calls `robot.setVelocity(vpRobot::CAMERA_FRAME, v)` in an
event sequence, in order. -/
def commandsOf {R : Type} : List (Event R) → List (Fin 6 → R)
  | [] => []
  | .setVelocity v :: rest => v :: commandsOf rest
  | _ :: rest => commandsOf rest

/-- The log lines of an event sequence, in order. -/
def recordsOf {R : Type} : List (Event R) → List (List R)
  | [] => []
  | .logRecord r :: rest => r :: recordsOf rest
  | _ :: rest => recordsOf rest

/-- The call inside the loop body that throws. -/
inductive ThrowPoint where
  /-- a call before `computeControlLaw` (time, `getVelocity`, `acquire`,
  `display`, `track`, `displayCross`, `vpFeatureBuilder::create`) -/
  | acquisition
  /-- Source: `task.computeControlLaw()` -/
  | controlLaw
  /-- Source: `kalman.filter(dedt_mes)`; when the filter is not invoked in the current
  configuration, the next call, `vpServoDisplay::display` -/
  | filter
  /-- Source: `vpServoDisplay::display(task, cam, I)` -/
  | display
  /-- Source: `robot.setVelocity(...)`: the command is not accepted -/
  | setVelocity
  /-- Source: `vpDisplay::flush(I)`, after the command and the log line -/
  | flush
  deriving DecidableEq, Repr

/-- What happens in one iteration: all calls return, or one of them throws. -/
inductive IterOutcome (R : Type) where
  | completes (inp : IterInput R)
  | throws (inp : IterInput R) (at_ : ThrowPoint)

/-- The `kalman.filter` event of an iteration, if the filter is invoked. -/
def filterEvents {R : Type} (out : IterOutput R) : List (Event R) :=
  match out.filterArg with
  | some z => [.kalmanFilter z]
  | none => []

/-- Events of an iteration in which no call throws. -/
def iterEvents {R : Type} (out : IterOutput R) : List (Event R) :=
  [.controlLaw] ++ filterEvents out ++ [.setVelocity out.command, .logRecord out.record]

/-- Events of an iteration up to the call that throws. -/
def eventsBefore {R : Type} (p : ThrowPoint) (out : IterOutput R) : List (Event R) :=
  match p with
  | .acquisition => []
  | .controlLaw => []
  | .filter => [.controlLaw]
  | .display => [.controlLaw] ++ filterEvents out
  | .setVelocity => [.controlLaw] ++ filterEvents out
  | .flush => iterEvents out

/-- How the execution of `while(1) { ... }` ends for a finite script. -/
inductive LoopEnd (R : Type) where
  /-- the script is exhausted and the program is still inside the loop -/
  | looping
  /-- the loop condition was false -/
  | finished (task : ServoTask R)
  /-- a call threw -/
  | threw (task : ServoTask R)

/-- The loop condition of `while(1)`. -/
def loopCondition : Bool := true

/-- Execution of `while(1) { ... }` against a script of iteration outcomes. -/
def runLoop {R K : Type} [Field R] (ops : KalmanOps R K) (cfg : LoopConfig R) :
    LoopState R K → List (IterOutcome R) → List (Event R) × LoopEnd R
  | st, [] => if loopCondition then ([], .looping) else ([], .finished st.task)
  | st, .completes inp :: rest =>
      if loopCondition then
        let (st', out) := loopBody ops cfg st inp
        let (evs, e) := runLoop ops cfg st' rest
        (iterEvents out ++ evs, e)
      else ([], .finished st.task)
  | st, .throws inp p :: _ =>
      if loopCondition then
        (eventsBefore p (loopBody ops cfg st inp).2, .threw st.task)
      else ([], .finished st.task)

/-- Initialisation of the Kalman filter (lines 326-361): the filter object and
`state_size`. -/
def kalmanInit {R K : Type} [Field R] (ops : KalmanOps R K) (opt_kalman : KalmanType) :
    K × Nat :=
  let kalman := ops.fresh
  let rho : R := 3 / 10
  let sigma_measure : List R := List.replicate nsignal 0
  let state_size := 0
  if opt_kalman = K_VELOCITY then
    let kalman := ops.setStateModel kalman .stateConstVelWithColoredNoise_MeasureVel
    let state_size := ops.getStateSize kalman
    let sigma_state : List R := List.replicate (state_size * nsignal) (1 / 100000)
    let sigma_measure : List R := sigma_measure.map (fun _ => 5 / 100)
    let dummy : R := 0
    (ops.initFilter kalman nsignal sigma_state sigma_measure rho dummy, state_size)
  else if opt_kalman = K_ACCELERATION then
    let kalman := ops.setStateModel kalman .stateConstAccWithColoredNoise_MeasureVel
    let state_size := ops.getStateSize kalman
    let sigma_state : List R := List.replicate (state_size * nsignal) (1 / 100000)
    let sigma_measure : List R := sigma_measure.map (fun _ => 5 / 100)
    let dt : R := 1 / (opt_cam_frequency : R)
    (ops.initFilter kalman nsignal sigma_state sigma_measure rho dt, state_size)
  else
    (kalman, state_size)

/-- The environment of one execution of `main`. -/
structure Script (R : Type) where
  /-- result of `getOptions(...)` -/
  optionsOk : Bool
  /-- value of `opt_kalman` after `getOptions` -/
  opt_kalman : KalmanType
  /-- result of `vpIoTools::checkDirectory(logdirname)` -/
  dirExists : Bool
  /-- Source: `vpIoTools::makeDirectory(logdirname)` throws -/
  mkdirThrows : Bool
  /-- some call of the `try` block before the loop variables are set up
  (lines 238-363, `robot.setRobotState` included) throws -/
  setupThrows : Bool
  /-- Source: `I.getWidth()` -/
  width : R
  /-- Source: `I.getHeight()` -/
  height : R
  /-- Source: `vpTime::measureTimeMs()` before the loop -/
  t_init : R
  /-- the loop iterations -/
  iters : List (IterOutcome R)

/-- How `main` ends. -/
inductive Exit where
  /-- Source: `return code` from `main` -/
  | returned (code : Int)
  /-- Source: `exit(code)` -/
  | exited (code : Int)
  /-- still inside `while(1)` -/
  | looping
  deriving DecidableEq, Repr

/-- The `catch (...)` block (lines 524-532) followed by the destruction of
`task` when `main` returns. -/
def handler {R : Type} (task : ServoTask R) : List (Event R) :=
  let task := task.kill
  [.flogClose, .kill, .errorTrace, .destroyTask task.destructorRaises]

/-- The statements after the loop (lines 514-522) followed by the destruction
of the locals when `main` returns. -/
def afterLoop {R : Type} (task : ServoTask R) : List (Event R) :=
  let task := task.kill
  [.flogClose, .taskPrint, .kill, .destroyTryLocals, .destroyTask task.destructorRaises]

/-- The camera centre and the filter configuration with which `main` enters
the loop (lines 291-361). -/
def mainConfig {R K : Type} [Field R] (ops : KalmanOps R K) (s : Script R) : LoopConfig R :=
  let u0 := s.width / 2
  let v0 := s.height / 2
  { opt_kalman := s.opt_kalman, state_size := (kalmanInit ops s.opt_kalman).2,
    u0 := u0, v0 := v0 }

/-- The loop variables with which `main` enters the loop. -/
def mainInit {R K : Type} [Field R] (ops : KalmanOps R K) (s : Script R) : LoopState R K :=
  initState s.t_init ServoTask.init (kalmanInit ops s.opt_kalman).1

/-- The events issued by `main` before it enters the `try` block (lines 197-235),
when neither the options nor the log directory fail. -/
def preamble {R : Type} (s : Script R) : List (Event R) :=
  [.getOptions true] ++ (if s.dirExists = false then [.makeDirectory] else [])
    ++ [.openLog, .constructTask]

/-- The function `main` (lines 188-533). -/
def main {R K : Type} [Field R] (ops : KalmanOps R K) (s : Script R) :
    List (Event R) × Exit :=
  if s.optionsOk = false then
    ([.getOptions false], .returned (-1))
  else if s.dirExists = false ∧ s.mkdirThrows = true then
    ([.getOptions true, .makeDirectory], .exited (-1))
  else
    let pre : List (Event R) := preamble s
    let task : ServoTask R := ServoTask.init
    if s.setupThrows = true then
      (pre ++ [.destroyTryLocals] ++ handler task, .returned 0)
    else
      match runLoop ops (mainConfig ops s) (mainInit ops s) s.iters with
      | (evs, .looping) => (pre ++ [.setRobotState] ++ evs, .looping)
      | (evs, .finished task) => (pre ++ [.setRobotState] ++ evs ++ afterLoop task, .returned 0)
      | (evs, .threw task) =>
          (pre ++ [.setRobotState] ++ evs ++ [.destroyTryLocals] ++ handler task, .returned 0)

/-- The event is one of those issued inside the loop body. -/
def Event.isLoopEvent {R : Type} : Event R → Bool
  | .controlLaw => true
  | .kalmanFilter _ => true
  | .setVelocity _ => true
  | .logRecord _ => true
  | _ => false

/-- The events of the failure path after the loop events. -/
def failureTail {R : Type} : List (Event R) :=
  [.destroyTryLocals, .flogClose, .kill, .errorTrace, .destroyTask false]

/-! ## Adaptive gain (`vpServo::setLambda`) -/

/-- The three parameters of the adaptive gain `vpAdaptativeGain`. -/
structure GainProfile (R : Type) where
  gain0 : R
  gainInfinity : R
  slopeAtZero : R

/-- Modelled from the spec: `vpAdaptativeGain::initStandard(at_zero, at_infinity,
deriv_at_zero)`; the class `vpAdaptativeGain` is not among the sources.  Per the
spec (section 3, GainProfile) the profile is the triple
`(gain0, gainInfinity, slopeAtZero)`. -/
def initStandard {R : Type} (at_zero at_infinity deriv_at_zero : R) : GainProfile R :=
  { gain0 := at_zero, gainInfinity := at_infinity, slopeAtZero := deriv_at_zero }

/-- The method `vpServo::setLambda(at_zero, at_infinity, deriv_at_zero)` of
vpServo.h: `{ lambda .initStandard (at_zero, at_infinity, deriv_at_zero) ; }`;
the result is the new value of the member `lambda`. -/
def setLambda {R : Type} (at_zero at_infinity deriv_at_zero : R) : GainProfile R :=
  initStandard at_zero at_infinity deriv_at_zero

/-- Modelled from the spec: the value of the adaptive gain at error norm `x`
(the class `vpAdaptativeGain` is not among the sources).  Per the spec,
`gain(e) = (gain0 - gainInfinity) * exp(-slopeAtZero * ||e|| / (gain0 - gainInfinity))
+ gainInfinity`.  The exponential of the scalar type is a parameter. -/
def GainProfile.value {R : Type} [Field R] (exp : R → R) (g : GainProfile R) (x : R) : R :=
  (g.gain0 - g.gainInfinity) * exp (-g.slopeAtZero * x / (g.gain0 - g.gainInfinity))
    + g.gainInfinity

/-- The gain configured by the example: `lambda.initStandard(4, 0.2, 40)`. -/
def exampleGain {R : Type} [Field R] : GainProfile R :=
  initStandard 4 (2 / 10) 40

/-! ## Meter to pixel conversion (`vpMeterPixelConversion`) -/

/-- The projection models named by the `case` labels of `convertPoint`. -/
inductive ProjModel where
  | perspectiveProjWithoutDistortion
  | perspectiveProjWithDistortion
  deriving DecidableEq, Repr

/-- The members of `vpCameraParameters` read by the conversion (the class is
not among the sources). -/
structure CameraParameters (R : Type) where
  px : R
  py : R
  u0 : R
  v0 : R
  kud : R
  projModel : ProjModel

/-- The function `vpMeterPixelConversion::convertPointWithoutDistortion`; the
result is the pair of output parameters `(u, v)`. -/
def convertPointWithoutDistortion {R : Type} [Field R] (cam : CameraParameters R)
    (x y : R) : R × R :=
  let u := x * cam.px + cam.u0
  let v := y * cam.py + cam.v0
  (u, v)

/-- The function `vpMeterPixelConversion::convertPointWithDistortion`. -/
def convertPointWithDistortion {R : Type} [Field R] (cam : CameraParameters R)
    (x y : R) : R × R :=
  let r2 := 1 + cam.kud * (x * x + y * y)
  let u := cam.u0 + cam.px * x * r2
  let v := cam.v0 + cam.py * y * r2
  (u, v)

/-- The function `vpMeterPixelConversion::convertPoint`: dispatch on the
projection model of the camera. -/
def convertPoint {R : Type} [Field R] (cam : CameraParameters R) (x y : R) : R × R :=
  match cam.projModel with
  | .perspectiveProjWithoutDistortion => convertPointWithoutDistortion cam x y
  | .perspectiveProjWithDistortion => convertPointWithDistortion cam x y

/-! ## Image filtering (`vpImageFilter`) -/

/-- Number of values of the type `unsigned` (32 bits): arithmetic on the loop
indices and bounds of `vpImageFilter::filter` is modulo this number. -/
def UNSIGNED_RANGE : Nat := 4294967296

/-- Subtraction of two `unsigned` values. -/
def usub (a b : Nat) : Nat :=
  (a % UNSIGNED_RANGE + UNSIGNED_RANGE - b % UNSIGNED_RANGE) % UNSIGNED_RANGE

/-- Addition of two `unsigned` values. -/
def uadd (a b : Nat) : Nat :=
  (a + b) % UNSIGNED_RANGE

/-- The type `unsigned char` of the pixels of the filtered image. -/
abbrev UChar := Fin 256

/-- An image `vpImage<T>` (the class is not among the sources): its size
`getHeight()` x `getWidth()` and its pixels, read as `I[i][j]` (row `i`,
column `j`; the operator does not check its indices). -/
structure Image (T : Type) where
  height : Nat
  width : Nat
  data : Nat → Nat → T

/-- A matrix `vpMatrix` (the class is not among the sources): `getRows()`,
`getCols()` and the entries read as `M[a][b]`. -/
structure VpMatrix (R : Type) where
  rows : Nat
  cols : Nat
  entry : Nat → Nat → R

/-- Transpose of a matrix. -/
def VpMatrix.t {R : Type} (M : VpMatrix R) : VpMatrix R :=
  { rows := M.cols, cols := M.rows, entry := fun a b => M.entry b a }

/-- The two statements `If.resize(I.getHeight(), I.getWidth()) ; If = 0 ;`. -/
def Image.zeros {R : Type} [Zero R] (height width : Nat) : Image R :=
  { height := height, width := width, data := fun _ _ => 0 }

/-- The assignment `If[i][j] = x`. -/
def Image.set {R : Type} (If : Image R) (i j : Nat) (x : R) : Image R :=
  { If with data := fun i' j' => if i' = i ∧ j' = j then x else If.data i' j' }

/-- The two innermost loops of the one-output `filter` (lines 65-72) for the
pixel `(i, j)`: the value of `conv_x` after them.  `toDouble` is the conversion
of `double val = I[i-half_size+a][j-half_size+b]`. -/
def convAt {T R : Type} [Field R] (toDouble : T → R) (I : Image T) (M : VpMatrix R)
    (size half_size i j : Nat) : R :=
  (List.range size).foldl
    (fun conv_x a =>
      (List.range size).foldl
        (fun conv_x b =>
          let val := toDouble (I.data (uadd (usub i half_size) a) (uadd (usub j half_size) b))
          conv_x + M.entry a b * val)
        conv_x)
    0

/-- The function `vpImageFilter::filter(I, If, M)` (lines 48-77); the result is
the output parameter `If`.  The source is written for pixels of type
`unsigned char`; the pixel type and its conversion to `double` are parameters
here, so that the same statements can be read on an image of doubles. -/
def filter {T R : Type} [Field R] (toDouble : T → R) (I : Image T) (M : VpMatrix R) :
    Image R :=
  let size := M.rows
  let half_size := size / 2
  let If : Image R := Image.zeros I.height I.width
  (List.range' half_size (usub I.height half_size - half_size)).foldl
    (fun If i =>
      (List.range' half_size (usub I.width half_size - half_size)).foldl
        (fun If j => If.set i j (convAt toDouble I M size half_size i j))
        If)
    If

/-- The function `filter` at the pixel type of the source, `unsigned char`. -/
def filterUChar {R : Type} [Field R] (I : Image UChar) (M : VpMatrix R) : Image R :=
  filter (fun p : UChar => ((p.val : Nat) : R)) I M

/-- The two innermost loops of the two-output `filter` (lines 107-116) for the
pixel `(v, u)`: the values of `(conv_u, conv_v)` after them. -/
def convUV {R : Type} [Field R] (I : Image R) (M : VpMatrix R)
    (size half_size v u : Nat) : R × R :=
  (List.range size).foldl
    (fun conv a =>
      (List.range size).foldl
        (fun conv b =>
          let val := I.data (uadd (usub v half_size) a) (uadd (usub u half_size) b)
          (conv.1 + M.entry a b * val, conv.2 + M.entry b a * val))
        conv)
    (0, 0)

/-- The function `vpImageFilter::filter(I, Iu, Iv, M)` (lines 88-122); the
result is the pair of output parameters `(Iu, Iv)`. -/
def filterUV {R : Type} [Field R] (I : Image R) (M : VpMatrix R) : Image R × Image R :=
  let size := M.rows
  let half_size := size / 2
  let Iu : Image R := Image.zeros I.height I.width
  let Iv : Image R := Image.zeros I.height I.width
  (List.range' half_size (usub I.height half_size - half_size)).foldl
    (fun Iuv v =>
      (List.range' half_size (usub I.width half_size - half_size)).foldl
        (fun Iuv u =>
          let conv := convUV I M size half_size v u
          (Iuv.1.set v u conv.1, Iuv.2.set v u conv.2))
        Iuv)
    (Iu, Iv)

/-! ## Sample data for evaluating the model on concrete inputs -/

/-- A sample filter over the rationals with two state components per signal:
the estimate holds the last measurement of each signal followed by a zero. -/
def sampleOps : KalmanOps ℚ (List ℚ) :=
  { fresh := []
    setStateModel := fun k _ => k
    getStateSize := fun _ => 2
    initFilter := fun _ n _ _ _ _ => List.replicate (2 * n) 0
    filter := fun _ z => [z 0, 0, z 1, 0]
    Xest := fun k => k }

/-- Sample configuration: velocity model, two state components per signal,
image centre (320, 240). -/
def sampleConfig : LoopConfig ℚ :=
  { opt_kalman := K_VELOCITY, state_size := 2, u0 := 320, v0 := 240 }

/-- Sample inputs: one iteration per second, measured velocity 1 on every
axis, error `(t, t)` at iteration `t`, task Jacobian zero except at iteration 2
where all its entries are 1. -/
def sampleInputs (t : Nat) : IterInput ℚ :=
  { t_0 := 1000 * (t + 1)
    vm := fun _ => 1
    cog_u := 321
    cog_v := 242
    claw :=
      { v1 := fun _ => 1
        error := fun _ => t
        J1 := if t = 2 then (fun _ _ => 1) else 0
        J1p := fun _ _ => 1 } }

/-- Sample initial state of the loop variables. -/
def sampleInit : LoopState ℚ (List ℚ) :=
  initState 0 ServoTask.init [0, 0, 0, 0]

/-- Sample configuration without filter (`K_NONE`). -/
def sampleConfigNone : LoopConfig ℚ :=
  { opt_kalman := K_NONE, state_size := 0, u0 := 320, v0 := 240 }

/-- A sample 3 x 3 kernel: the horizontal difference `[-1 0 1]` on each row. -/
def sampleKernel : VpMatrix ℚ :=
  { rows := 3, cols := 3,
    entry := fun _ b => if b = 0 then -1 else if b = 2 then 1 else 0 }

/-- A sample 4 x 5 image of doubles: the pixel at `(i, j)` is `j * j`. -/
def sampleImage : Image ℚ :=
  { height := 4, width := 5, data := fun _ j => (j : ℚ) * j }

/-- A sample 4 x 5 image of `unsigned char`: the pixel at `(i, j)` is `j * j`
(modulo 256). -/
def sampleImageUChar : Image UChar :=
  { height := 4, width := 5, data := fun _ j => Fin.ofNat (j * j) }

/-- A sample execution of `main` without filter: the first iteration completes,
a call at the top of the second iteration throws. -/
def failingScript : Script ℚ :=
  { optionsOk := true, opt_kalman := K_NONE, dirExists := true, mkdirThrows := false,
    setupThrows := false, width := 640, height := 480, t_init := 0,
    iters := [.completes (sampleInputs 0), .throws (sampleInputs 1) .acquisition] }

/-! ## Basic facts about the loop -/

theorem loopBody_iter {R K : Type} [Field R] (ops : KalmanOps R K) (cfg : LoopConfig R)
    (st : LoopState R K) (inp : IterInput R) :
    (loopBody ops cfg st inp).1.iter = st.iter + 1 := rfl

theorem stateAt_iter {R K : Type} [Field R] (ops : KalmanOps R K) (cfg : LoopConfig R)
    (st0 : LoopState R K) (ins : Nat → IterInput R) (t : Nat) :
    (stateAt ops cfg st0 ins t).iter = st0.iter + t := by
  induction t with
  | zero => rfl
  | succ n ih => simp only [stateAt, loopBody_iter, ih]; omega

theorem loopBody_task {R K : Type} [Field R] (ops : KalmanOps R K) (cfg : LoopConfig R)
    (st : LoopState R K) (inp : IterInput R) :
    (loopBody ops cfg st inp).1.task = (computeControlLaw st.task inp.claw).1 := rfl

theorem loopBody_t_1 {R K : Type} [Field R] (ops : KalmanOps R K) (cfg : LoopConfig R)
    (st : LoopState R K) (inp : IterInput R) :
    (loopBody ops cfg st inp).1.t_1 = inp.t_0 := rfl

theorem loopBody_Tv_0 {R K : Type} [Field R] (ops : KalmanOps R K) (cfg : LoopConfig R)
    (st : LoopState R K) (inp : IterInput R) :
    (loopBody ops cfg st inp).1.Tv_0 = (inp.t_0 - st.t_1) / 1000 := rfl

theorem loopBody_err_0 {R K : Type} [Field R] (ops : KalmanOps R K) (cfg : LoopConfig R)
    (st : LoopState R K) (inp : IterInput R) :
    (loopBody ops cfg st inp).1.err_0 = if st.iter = 0 then 0 else inp.claw.error := rfl

theorem loopBody_out_Tv {R K : Type} [Field R] (ops : KalmanOps R K) (cfg : LoopConfig R)
    (st : LoopState R K) (inp : IterInput R) :
    (loopBody ops cfg st inp).2.Tv = (inp.t_0 - st.t_1) / 1000 := rfl

theorem loopBody_dedt_mes_of_le_one {R K : Type} [Field R] (ops : KalmanOps R K)
    (cfg : LoopConfig R) (st : LoopState R K) (inp : IterInput R) (h : st.iter ≤ 1) :
    (loopBody ops cfg st inp).2.dedt_mes = 0 := by
  simp [loopBody, h]

theorem loopBody_dedt_mes_of_two_le {R K : Type} [Field R] (ops : KalmanOps R K)
    (cfg : LoopConfig R) (st : LoopState R K) (inp : IterInput R) (h : 2 ≤ st.iter) :
    (loopBody ops cfg st inp).2.dedt_mes =
      (fun i => (inp.claw.error i - st.err_0 i) / st.Tv_0) - inp.claw.J1.mulVec inp.vm := by
  have h1 : ¬ st.iter ≤ 1 := by omega
  have h0 : st.iter ≠ 0 := by omega
  simp [loopBody, computeControlLaw, h1, h0]

/-- The third component of the filter switch is the measured derivative itself
whenever the filter is called. -/
theorem kalmanSwitch_filterArg {R K : Type} [Zero R] (ops : KalmanOps R K)
    (cfg : LoopConfig R) (kalman : K) (m d z : Fin nsignal → R)
    (h : (kalmanSwitch ops cfg kalman m d).2.2 = some z) : z = m := by
  unfold kalmanSwitch at h
  split_ifs at h
  simp_all

theorem loopBody_filterArg {R K : Type} [Field R] (ops : KalmanOps R K)
    (cfg : LoopConfig R) (st : LoopState R K) (inp : IterInput R) (z : Fin nsignal → R)
    (h : (loopBody ops cfg st inp).2.filterArg = some z) :
    z = (loopBody ops cfg st inp).2.dedt_mes :=
  kalmanSwitch_filterArg ops cfg _ _ _ z h

theorem loopBody_record {R K : Type} [Field R] (ops : KalmanOps R K)
    (cfg : LoopConfig R) (st : LoopState R K) (inp : IterInput R) :
    (loopBody ops cfg st inp).2.record =
      [(loopBody ops cfg st inp).2.Tv_0,
       (loopBody ops cfg st inp).2.v 0, (loopBody ops cfg st inp).2.v 1,
       (loopBody ops cfg st inp).2.v 2, (loopBody ops cfg st inp).2.v 3,
       (loopBody ops cfg st inp).2.v 4, (loopBody ops cfg st inp).2.v 5,
       (loopBody ops cfg st inp).1.task.error 0, (loopBody ops cfg st inp).1.task.error 1,
       inp.cog_u - cfg.u0, inp.cog_v - cfg.v0,
       (loopBody ops cfg st inp).2.dedt_mes 0, (loopBody ops cfg st inp).2.dedt_mes 1,
       (loopBody ops cfg st inp).2.dedt_filt 0, (loopBody ops cfg st inp).2.dedt_filt 1] := rfl

theorem loopBody_v2 {R K : Type} [Field R] (ops : KalmanOps R K)
    (cfg : LoopConfig R) (st : LoopState R K) (inp : IterInput R) :
    (loopBody ops cfg st inp).2.v2 =
      (-(loopBody ops cfg st inp).1.task.J1p).mulVec (loopBody ops cfg st inp).2.dedt_filt :=
  rfl

theorem stateAt_succ_task {R K : Type} [Field R] (ops : KalmanOps R K) (cfg : LoopConfig R)
    (st0 : LoopState R K) (ins : Nat → IterInput R) (t : Nat) :
    (stateAt ops cfg st0 ins (t + 1)).task =
      (computeControlLaw (stateAt ops cfg st0 ins t).task (ins t).claw).1 := rfl

theorem stateAt_succ_succ_err_0 {R K : Type} [Field R] (ops : KalmanOps R K)
    (cfg : LoopConfig R) (st0 : LoopState R K) (ins : Nat → IterInput R) (t : Nat) :
    (stateAt ops cfg st0 ins (t + 2)).err_0 = (ins (t + 1)).claw.error := by
  have h : (stateAt ops cfg st0 ins (t + 1)).iter ≠ 0 := by
    rw [stateAt_iter]; omega
  show (loopBody ops cfg (stateAt ops cfg st0 ins (t + 1)) (ins (t + 1))).1.err_0 = _
  rw [loopBody_err_0, if_neg h]

theorem stateAt_succ_succ_Tv_0 {R K : Type} [Field R] (ops : KalmanOps R K)
    (cfg : LoopConfig R) (st0 : LoopState R K) (ins : Nat → IterInput R) (t : Nat) :
    (stateAt ops cfg st0 ins (t + 2)).Tv_0 = ((ins (t + 1)).t_0 - (ins t).t_0) / 1000 := rfl

/-- Measured error derivative of iteration `t + 2`, in terms of the inputs. -/
theorem outputAt_dedt_mes {R K : Type} [Field R] (ops : KalmanOps R K)
    (cfg : LoopConfig R) (t_init : R) (task : ServoTask R) (kalman : K)
    (ins : Nat → IterInput R) (t : Nat) :
    (outputAt ops cfg (initState t_init task kalman) ins (t + 2)).dedt_mes =
      (fun i => ((ins (t + 2)).claw.error i - (ins (t + 1)).claw.error i)
                  / (((ins (t + 1)).t_0 - (ins t).t_0) / 1000))
        - (ins (t + 2)).claw.J1.mulVec (ins (t + 2)).vm := by
  have h : 2 ≤ (stateAt ops cfg (initState t_init task kalman) ins (t + 2)).iter := by
    rw [stateAt_iter]; omega
  unfold outputAt
  rw [loopBody_dedt_mes_of_two_le _ _ _ _ h, stateAt_succ_succ_err_0, stateAt_succ_succ_Tv_0]

/-! ## Facts about the events of `main` -/

theorem filterEvents_isLoopEvent {R : Type} (out : IterOutput R) :
    ∀ e ∈ filterEvents out, e.isLoopEvent = true := by
  intro e he
  unfold filterEvents at he
  cases h : out.filterArg with
  | none => simp [h] at he
  | some z =>
    simp [h] at he
    rw [he]; rfl

theorem iterEvents_isLoopEvent {R : Type} (out : IterOutput R) :
    ∀ e ∈ iterEvents out, e.isLoopEvent = true := by
  intro e he
  simp only [iterEvents, List.mem_append, List.mem_cons, List.mem_singleton,
    List.not_mem_nil, or_false] at he
  rcases he with (rfl | he) | rfl | rfl
  · rfl
  · exact filterEvents_isLoopEvent out e he
  · rfl
  · rfl

theorem eventsBefore_isLoopEvent {R : Type} (p : ThrowPoint) (out : IterOutput R) :
    ∀ e ∈ eventsBefore p out, e.isLoopEvent = true := by
  intro e he
  cases p
  · simp [eventsBefore] at he
  · simp [eventsBefore] at he
  · simp [eventsBefore] at he
    rw [he]; rfl
  · simp only [eventsBefore, List.mem_append, List.mem_singleton] at he
    rcases he with rfl | he
    · rfl
    · exact filterEvents_isLoopEvent out e he
  · simp only [eventsBefore, List.mem_append, List.mem_singleton] at he
    rcases he with rfl | he
    · rfl
    · exact filterEvents_isLoopEvent out e he
  · exact iterEvents_isLoopEvent out e he

theorem runLoop_isLoopEvent {R K : Type} [Field R] (ops : KalmanOps R K)
    (cfg : LoopConfig R) (iters : List (IterOutcome R)) :
    ∀ (st : LoopState R K), ∀ e ∈ (runLoop ops cfg st iters).1, e.isLoopEvent = true := by
  induction iters with
  | nil => intro st e he; simp [runLoop, loopCondition] at he
  | cons o rest ih =>
    intro st e he
    cases o with
    | completes inp =>
      simp only [runLoop, loopCondition, if_true, List.mem_append] at he
      rcases he with he | he
      · exact iterEvents_isLoopEvent _ e he
      · exact ih _ e he
    | throws inp p =>
      simp only [runLoop, loopCondition, if_true] at he
      exact eventsBefore_isLoopEvent p _ e he

/-- The loop of `while(1)` is never left through its condition. -/
theorem runLoop_ne_finished {R K : Type} [Field R] (ops : KalmanOps R K)
    (cfg : LoopConfig R) (iters : List (IterOutcome R)) :
    ∀ (st : LoopState R K) (task : ServoTask R),
      (runLoop ops cfg st iters).2 ≠ .finished task := by
  induction iters with
  | nil => intro st task; simp [runLoop, loopCondition]
  | cons o rest ih =>
    intro st task
    cases o with
    | completes inp =>
      simp only [runLoop, loopCondition, if_true]
      exact ih _ task
    | throws inp p => simp [runLoop, loopCondition]

theorem countP_eq_zero_of_isLoopEvent {R : Type} (l : List (Event R))
    (h : ∀ e ∈ l, e.isLoopEvent = true) (q : Event R → Bool)
    (hq : ∀ e, e.isLoopEvent = true → q e = false) : l.countP q = 0 := by
  rw [List.countP_eq_zero]
  intro e he
  simp [hq e (h e he)]

theorem any_eq_false_of_isLoopEvent {R : Type} (l : List (Event R))
    (h : ∀ e ∈ l, e.isLoopEvent = true) (q : Event R → Bool)
    (hq : ∀ e, e.isLoopEvent = true → q e = false) : l.any q = false := by
  rw [List.any_eq_false]
  intro e he
  simp [hq e (h e he)]

theorem isKill_of_isLoopEvent {R : Type} (e : Event R) (h : e.isLoopEvent = true) :
    e.isKill = false := by
  cases e <;> simp_all [Event.isLoopEvent, Event.isKill]

theorem isMisuse_of_isLoopEvent {R : Type} (e : Event R) (h : e.isLoopEvent = true) :
    e.isMisuse = false := by
  cases e <;> simp_all [Event.isLoopEvent, Event.isMisuse]

theorem isDestroyTask_of_isLoopEvent {R : Type} (e : Event R) (h : e.isLoopEvent = true) :
    e.isDestroyTask = false := by
  cases e <;> simp_all [Event.isLoopEvent, Event.isDestroyTask]

/-- The shape of the result of `main`, case by case. -/
theorem main_cases {R K : Type} [Field R] (ops : KalmanOps R K) (s : Script R) :
    main ops s = ([.getOptions false], .returned (-1)) ∨
    main ops s = ([.getOptions true, .makeDirectory], .exited (-1)) ∨
    main ops s = (preamble s ++ failureTail, .returned 0) ∨
    main ops s = (preamble s ++ [.setRobotState]
        ++ (runLoop ops (mainConfig ops s) (mainInit ops s) s.iters).1, .looping) ∨
    main ops s = (preamble s ++ [.setRobotState]
        ++ (runLoop ops (mainConfig ops s) (mainInit ops s) s.iters).1 ++ failureTail,
        .returned 0) := by
  unfold main
  by_cases h1 : s.optionsOk = false
  · left; simp [h1]
  · by_cases h2 : s.dirExists = false ∧ s.mkdirThrows = true
    · right; left; simp [h1, h2]
    · by_cases h3 : s.setupThrows = true
      · right; right; left
        simp only [h1, h2, h3, if_false, if_true]
        simp [preamble, failureTail, handler, ServoTask.kill, ServoTask.destructorRaises]
      · right; right; right
        simp only [h1, h2, h3, if_false]
        rcases hr : runLoop ops (mainConfig ops s) (mainInit ops s) s.iters with ⟨evs, e⟩
        cases e with
        | looping => left; simp [preamble]
        | finished task =>
          exfalso
          have := runLoop_ne_finished ops (mainConfig ops s) s.iters (mainInit ops s) task
          rw [hr] at this
          exact this rfl
        | threw task =>
          right
          simp [preamble, failureTail, handler, ServoTask.kill, ServoTask.destructorRaises]

theorem commandsOf_iterEvents {R : Type} (out : IterOutput R) :
    commandsOf (iterEvents out) = [out.command] := by
  unfold iterEvents filterEvents
  cases out.filterArg <;> rfl

theorem getLast?_append_failureTail {R : Type} (l : List (Event R)) :
    (l ++ failureTail).getLast? = some (Event.destroyTask false) := by
  rw [List.getLast?_append_of_ne_nil l (by simp [failureTail])]
  rfl

/-- The sample execution `failingScript` takes the failure path of `main`. -/
theorem main_failingScript :
    main sampleOps failingScript =
      (preamble failingScript ++ [Event.setRobotState]
        ++ (runLoop sampleOps (mainConfig sampleOps failingScript)
              (mainInit sampleOps failingScript) failingScript.iters).1 ++ failureTail,
        Exit.returned 0) := by
  simp [main, failingScript, runLoop, loopCondition, preamble, failureTail, handler,
    ServoTask.kill, ServoTask.destructorRaises]

/-! ## Facts about the filter switch and the log line -/

/-- Closed form of the extraction loop: entry `i` is the estimate entry at
index `i * state_size`. -/
theorem extractFiltered_apply {R : Type} [Zero R] (Xest : List R) (state_size : Nat)
    (d : Fin nsignal → R) (i : Fin nsignal) :
    extractFiltered Xest state_size d i = Xest.getD (i.val * state_size) 0 := by
  unfold extractFiltered
  fin_cases i <;> simp [List.finRange, Function.update]

theorem kalmanSwitch_of_model {R K : Type} [Zero R] (ops : KalmanOps R K)
    (cfg : LoopConfig R) (kalman : K) (m d : Fin nsignal → R)
    (h : cfg.opt_kalman = K_VELOCITY ∨ cfg.opt_kalman = K_ACCELERATION) :
    kalmanSwitch ops cfg kalman m d =
      (ops.filter kalman m,
       extractFiltered (ops.Xest (ops.filter kalman m)) cfg.state_size d, some m) := by
  have hn : cfg.opt_kalman ≠ K_NONE := by
    rcases h with h | h <;> rw [h] <;> decide
  simp [kalmanSwitch, hn, h]

theorem loopBody_dedt_filt {R K : Type} [Field R] (ops : KalmanOps R K)
    (cfg : LoopConfig R) (st : LoopState R K) (inp : IterInput R) :
    (loopBody ops cfg st inp).2.dedt_filt =
      (kalmanSwitch ops cfg st.kalman (loopBody ops cfg st inp).2.dedt_mes
        (if st.iter = 0 then 0 else st.dedt_filt)).2.1 := rfl

theorem loopBody_kalman {R K : Type} [Field R] (ops : KalmanOps R K)
    (cfg : LoopConfig R) (st : LoopState R K) (inp : IterInput R) :
    (loopBody ops cfg st inp).1.kalman =
      (kalmanSwitch ops cfg st.kalman (loopBody ops cfg st inp).2.dedt_mes
        (if st.iter = 0 then 0 else st.dedt_filt)).1 := rfl

theorem recordsOf_append {R : Type} (l1 l2 : List (Event R)) :
    recordsOf (l1 ++ l2) = recordsOf l1 ++ recordsOf l2 := by
  induction l1 with
  | nil => rfl
  | cons e rest ih => cases e <;> simp [recordsOf, ih]

theorem recordsOf_filterEvents {R : Type} (out : IterOutput R) :
    recordsOf (filterEvents out) = [] := by
  unfold filterEvents
  cases out.filterArg <;> rfl

theorem recordsOf_iterEvents {R : Type} (out : IterOutput R) :
    recordsOf (iterEvents out) = [out.record] := by
  unfold iterEvents
  rw [recordsOf_append, recordsOf_append, recordsOf_filterEvents]
  rfl

theorem recordsOf_eventsBefore {R : Type} (p : ThrowPoint) (out : IterOutput R) :
    recordsOf (eventsBefore p out) = if p = .flush then [out.record] else [] := by
  cases p <;>
    simp [eventsBefore, recordsOf_append, recordsOf_filterEvents, recordsOf_iterEvents,
      recordsOf]

theorem loopBody_record_length {R K : Type} [Field R] (ops : KalmanOps R K)
    (cfg : LoopConfig R) (st : LoopState R K) (inp : IterInput R) :
    (loopBody ops cfg st inp).2.record.length = 15 := rfl

/-- Every log line written by an execution of the loop has 15 values. -/
theorem runLoop_records_length {R K : Type} [Field R] (ops : KalmanOps R K)
    (cfg : LoopConfig R) (iters : List (IterOutcome R)) :
    ∀ (st : LoopState R K), ∀ r ∈ recordsOf (runLoop ops cfg st iters).1, r.length = 15 := by
  induction iters with
  | nil => intro st r hr; simp [runLoop, loopCondition, recordsOf] at hr
  | cons o rest ih =>
    intro st r hr
    cases o with
    | completes inp =>
      simp only [runLoop, loopCondition, if_true, recordsOf_append, recordsOf_iterEvents,
        List.mem_append, List.mem_singleton] at hr
      rcases hr with rfl | hr
      · rfl
      · exact ih _ r hr
    | throws inp p =>
      simp only [runLoop, loopCondition, if_true, recordsOf_eventsBefore] at hr
      split_ifs at hr
      · rw [List.mem_singleton] at hr
        rw [hr]; rfl
      · simp at hr

/-! ## Claims about the control loop -/

/-- C1.  In the iterations with index 0 and 1 of any run of the loop (any
initial values of the loop variables, any inputs), the measured error
derivative `dedt_mes` is the zero vector: this is the value the loop variable
holds, the argument of every call of the Kalman filter in that iteration, and
the value written at positions 11 and 12 of the log line. -/
theorem boundary_policy_zero_derivative {R K : Type} [Field R] (ops : KalmanOps R K)
    (cfg : LoopConfig R) (st0 : LoopState R K) (h0 : st0.iter = 0)
    (ins : Nat → IterInput R) (t : Nat) (ht : t ≤ 1) :
    (outputAt ops cfg st0 ins t).dedt_mes = 0 ∧
    (∀ z, Event.kalmanFilter z ∈ iterEvents (outputAt ops cfg st0 ins t) → z = 0) ∧
    (outputAt ops cfg st0 ins t).record.get? 11 = some 0 ∧
    (outputAt ops cfg st0 ins t).record.get? 12 = some 0 := by
  have hi : (stateAt ops cfg st0 ins t).iter ≤ 1 := by
    rw [stateAt_iter]; omega
  have hz : (outputAt ops cfg st0 ins t).dedt_mes = 0 :=
    loopBody_dedt_mes_of_le_one ops cfg _ _ hi
  refine ⟨hz, ?_, ?_, ?_⟩
  · intro z hzmem
    have harg : (outputAt ops cfg st0 ins t).filterArg = some z := by
      unfold iterEvents filterEvents at hzmem
      cases hfa : (outputAt ops cfg st0 ins t).filterArg with
      | none => simp [hfa] at hzmem
      | some w =>
        simp [hfa] at hzmem
        rw [hzmem]
    rw [loopBody_filterArg ops cfg _ _ z harg]
    exact hz
  · have hr := loopBody_record ops cfg (stateAt ops cfg st0 ins t) (ins t)
    unfold outputAt at hz ⊢
    rw [hr, hz]; rfl
  · have hr := loopBody_record ops cfg (stateAt ops cfg st0 ins t) (ins t)
    unfold outputAt at hz ⊢
    rw [hr, hz]; rfl

/-- Witness of C1 on the sample run, at iteration 1. -/
theorem boundary_policy_zero_derivative_witness :
    sampleInit.iter = 0 ∧ (1 : Nat) ≤ 1 ∧
    ((outputAt sampleOps sampleConfig sampleInit sampleInputs 1).dedt_mes = 0 ∧
     (∀ z, Event.kalmanFilter z ∈
        iterEvents (outputAt sampleOps sampleConfig sampleInit sampleInputs 1) → z = 0) ∧
     (outputAt sampleOps sampleConfig sampleInit sampleInputs 1).record.get? 11 = some 0 ∧
     (outputAt sampleOps sampleConfig sampleInit sampleInputs 1).record.get? 12 = some 0) :=
  ⟨rfl, le_refl 1,
    boundary_policy_zero_derivative sampleOps sampleConfig sampleInit rfl sampleInputs 1
      (le_refl 1)⟩

/-- C2, as stated, fails on the sample run: at iteration 2 the measured error
derivative is not the finite difference minus the product of the task Jacobian
left by iteration 1 (the value `task.J1` holds at the top of iteration 2) with
the measured velocity. -/
theorem previous_jacobian_counterexample :
    ¬ ((outputAt sampleOps sampleConfig sampleInit sampleInputs 2).dedt_mes =
        (fun i => ((sampleInputs 2).claw.error i - (sampleInputs 1).claw.error i)
                    / (outputAt sampleOps sampleConfig sampleInit sampleInputs 1).Tv)
          - (stateAt sampleOps sampleConfig sampleInit sampleInputs 2).task.J1.mulVec
              (sampleInputs 2).vm) := by
  intro h
  rw [show sampleInit = initState 0 ServoTask.init [0, 0, 0, 0] from rfl,
    outputAt_dedt_mes] at h
  have h0 := congrFun h 0
  simp [outputAt, stateAt, loopBody_out_Tv, loopBody_t_1, loopBody_task, computeControlLaw,
    sampleInputs, Matrix.mulVec, Matrix.dotProduct, Fin.sum_univ_succ] at h0

/-- C2, amended.  For every iteration `t + 2` of a run, the Jacobian that
multiplies the measured velocity in `dedt_mes` is the one produced by the
`computeControlLaw()` of that same iteration (the value `task.J1` holds after
iteration `t + 2`), not the one left by the previous iteration. -/
theorem current_jacobian_in_derivative {R K : Type} [Field R] (ops : KalmanOps R K)
    (cfg : LoopConfig R) (t_init : R) (task : ServoTask R) (kalman : K)
    (ins : Nat → IterInput R) (t : Nat) :
    (stateAt ops cfg (initState t_init task kalman) ins (t + 3)).task.J1
        = (ins (t + 2)).claw.J1 ∧
    (stateAt ops cfg (initState t_init task kalman) ins (t + 2)).task.J1
        = (ins (t + 1)).claw.J1 ∧
    (outputAt ops cfg (initState t_init task kalman) ins (t + 2)).dedt_mes =
      (fun i => ((ins (t + 2)).claw.error i - (ins (t + 1)).claw.error i)
                  / (outputAt ops cfg (initState t_init task kalman) ins (t + 1)).Tv)
        - (stateAt ops cfg (initState t_init task kalman) ins (t + 3)).task.J1.mulVec
            (outputAt ops cfg (initState t_init task kalman) ins (t + 2)).vm_0 := by
  refine ⟨rfl, rfl, ?_⟩
  rw [outputAt_dedt_mes]
  rfl

/-- C3.  For every iteration `t + 2` of a run, `dedt_mes` is the difference of
`task.error` right after the `computeControlLaw()` of iterations `t + 2` and
`t + 1`, divided by the loop time measured at the top of iteration `t + 1`
(the time read there minus the time read at the top of iteration `t`, in
seconds), minus the Jacobian applied to the velocity read from the robot at
the top of iteration `t + 2`; and a second run, with any filter, configuration,
primary velocities and pseudo-inverses, that reads the same times, measured
velocities, errors and Jacobians computes the same `dedt_mes`. -/
theorem derivative_operands {R K : Type} [Field R] (ops : KalmanOps R K)
    (cfg : LoopConfig R) (t_init : R) (task : ServoTask R) (kalman : K)
    (ins : Nat → IterInput R) (t : Nat) :
    (outputAt ops cfg (initState t_init task kalman) ins (t + 2)).dedt_mes =
      (fun i =>
          ((stateAt ops cfg (initState t_init task kalman) ins (t + 3)).task.error i
            - (stateAt ops cfg (initState t_init task kalman) ins (t + 2)).task.error i)
          / (outputAt ops cfg (initState t_init task kalman) ins (t + 1)).Tv)
        - (ins (t + 2)).claw.J1.mulVec (ins (t + 2)).vm ∧
    (outputAt ops cfg (initState t_init task kalman) ins (t + 1)).Tv
        = ((ins (t + 1)).t_0 - (ins t).t_0) / 1000 ∧
    (outputAt ops cfg (initState t_init task kalman) ins (t + 2)).vm_0 = (ins (t + 2)).vm ∧
    (∀ (K2 : Type) (ops2 : KalmanOps R K2) (cfg2 : LoopConfig R) (t_init2 : R)
        (task2 : ServoTask R) (kalman2 : K2) (ins2 : Nat → IterInput R),
        (∀ k, (ins2 k).t_0 = (ins k).t_0 ∧ (ins2 k).vm = (ins k).vm ∧
              (ins2 k).claw.error = (ins k).claw.error ∧
              (ins2 k).claw.J1 = (ins k).claw.J1) →
        (outputAt ops2 cfg2 (initState t_init2 task2 kalman2) ins2 (t + 2)).dedt_mes =
          (outputAt ops cfg (initState t_init task kalman) ins (t + 2)).dedt_mes) := by
  refine ⟨?_, rfl, rfl, ?_⟩
  · rw [outputAt_dedt_mes]
    rfl
  · intro K2 ops2 cfg2 t_init2 task2 kalman2 ins2 hsame
    rw [outputAt_dedt_mes, outputAt_dedt_mes]
    rw [(hsame (t + 2)).2.2.1, (hsame (t + 1)).2.2.1, (hsame (t + 2)).2.2.2,
      (hsame (t + 2)).2.1, (hsame (t + 1)).1, (hsame t).1]

/-- C4.  In every iteration the argument of `robot.setVelocity` is
`v = v1 + v2`, with `v1` the value returned by this iteration's
`computeControlLaw()` and `v2 = -J1p * dedt_filt`, `J1p` being the
pseudo-inverse this call left in the task and `dedt_filt` this iteration's
filtered derivative; the iteration issues exactly this one command, and the
log line holds the same six values at positions 1 to 6. -/
theorem command_is_sum {R K : Type} [Field R] (ops : KalmanOps R K)
    (cfg : LoopConfig R) (st : LoopState R K) (inp : IterInput R) :
    (loopBody ops cfg st inp).2.command
        = (loopBody ops cfg st inp).2.v1 + (loopBody ops cfg st inp).2.v2 ∧
    (loopBody ops cfg st inp).2.v1 = (computeControlLaw st.task inp.claw).2 ∧
    (loopBody ops cfg st inp).2.v2
        = -((computeControlLaw st.task inp.claw).1.J1p.mulVec
              (loopBody ops cfg st inp).2.dedt_filt) ∧
    (computeControlLaw st.task inp.claw).1.J1p = inp.claw.J1p ∧
    commandsOf (iterEvents (loopBody ops cfg st inp).2)
        = [(loopBody ops cfg st inp).2.v1 + (loopBody ops cfg st inp).2.v2] ∧
    ((loopBody ops cfg st inp).2.record.drop 1).take 6
        = List.ofFn ((loopBody ops cfg st inp).2.v1 + (loopBody ops cfg st inp).2.v2) := by
  refine ⟨rfl, rfl, ?_, rfl, ?_, ?_⟩
  · rw [loopBody_v2, Matrix.neg_mulVec]
    rfl
  · exact commandsOf_iterEvents _
  · rw [loopBody_record]
    simp [List.ofFn_succ]
    refine ⟨rfl, rfl, rfl, rfl, rfl, rfl⟩

/-- C6.  Whenever `main` ends (by `return` or by `exit`): if the task was
constructed, `kill()` is called exactly once, the task is destroyed exactly once,
as the last event and therefore after `kill()`, and its destructor does not raise
`notKilledProperly`; if `kill()` is not called, the task was never constructed
and `main` ended with code -1 on the option or the log-directory failure.  The
same holds for the two blocks that end `main` after the task is built: the
statements after the loop and the `catch` block each call `kill()` once, before
the destruction. -/
theorem kill_exactly_once {R K : Type} [Field R] (ops : KalmanOps R K) (s : Script R)
    (hend : (main ops s).2 ≠ Exit.looping) :
    ((main ops s).1.any Event.isConstructTask = true →
      (main ops s).1.countP Event.isKill = 1 ∧
      (main ops s).1.countP Event.isDestroyTask = 1 ∧
      (main ops s).1.getLast? = some (Event.destroyTask false) ∧
      (main ops s).1.any Event.isMisuse = false) ∧
    ((main ops s).1.countP Event.isKill = 0 →
      (main ops s).1.any Event.isConstructTask = false ∧
      ((main ops s).2 = Exit.returned (-1) ∨ (main ops s).2 = Exit.exited (-1))) ∧
    (∀ task : ServoTask R,
      (afterLoop task : List (Event R)).countP Event.isKill = 1 ∧
      (afterLoop task : List (Event R)).getLast? = some (Event.destroyTask false) ∧
      (handler task : List (Event R)).countP Event.isKill = 1 ∧
      (handler task : List (Event R)).getLast? = some (Event.destroyTask false)) := by
  have hloop := runLoop_isLoopEvent ops (mainConfig ops s) s.iters (mainInit ops s)
  have hk := countP_eq_zero_of_isLoopEvent _ hloop Event.isKill isKill_of_isLoopEvent
  have hd := countP_eq_zero_of_isLoopEvent _ hloop Event.isDestroyTask
    isDestroyTask_of_isLoopEvent
  have hm := any_eq_false_of_isLoopEvent _ hloop Event.isMisuse isMisuse_of_isLoopEvent
  refine ⟨?_, ?_, ?_⟩
  · intro hc
    rcases main_cases ops s with h | h | h | h | h
    · rw [h] at hc; simp [Event.isConstructTask] at hc
    · rw [h] at hc; simp [Event.isConstructTask] at hc
    · rw [h]
      by_cases hdir : s.dirExists = false <;>
        simp [preamble, failureTail, hdir, Event.isKill, Event.isDestroyTask, Event.isMisuse,
          List.countP_cons]
    · rw [h] at hend; exact absurd rfl hend
    · rw [h]
      refine ⟨?_, ?_, getLast?_append_failureTail _, ?_⟩ <;>
      by_cases hdir : s.dirExists = false <;>
        simp [preamble, failureTail, hdir, Event.isKill, Event.isDestroyTask, Event.isMisuse,
          List.countP_cons, List.countP_append, hk, hd, hm]
  · intro h0
    rcases main_cases ops s with h | h | h | h | h
    · rw [h]; simp [Event.isConstructTask]
    · rw [h]; simp [Event.isConstructTask]
    · rw [h] at h0
      simp [preamble, failureTail, Event.isKill, List.countP_cons, List.countP_append] at h0
    · rw [h] at hend; exact absurd rfl hend
    · rw [h] at h0
      simp [preamble, failureTail, Event.isKill, List.countP_cons, List.countP_append] at h0
  · intro task
    simp [afterLoop, handler, ServoTask.kill, ServoTask.destructorRaises, Event.isKill,
      List.countP_cons]

/-- Witness of C6 on the sample execution `failingScript`. -/
theorem kill_exactly_once_witness :
    (main sampleOps failingScript).2 ≠ Exit.looping ∧
    (main sampleOps failingScript).1.any Event.isConstructTask = true ∧
    (main sampleOps failingScript).1.countP Event.isKill = 1 ∧
    (main sampleOps failingScript).1.any Event.isMisuse = false :=
  have hend : (main sampleOps failingScript).2 ≠ Exit.looping := by
    rw [main_failingScript]; simp
  have hc : (main sampleOps failingScript).1.any Event.isConstructTask = true := by
    rw [main_failingScript]
    simp [preamble, failingScript, Event.isConstructTask]
  have h := (kill_exactly_once sampleOps failingScript hend).1 hc
  ⟨hend, hc, h.1, h.2.2.2⟩

/-- C8.  Every pass through the loop body writes exactly one log line, of 15
values in this order: the loop time `Tv_0` in seconds, the six commanded
velocities `v[0..5]`, the two feature errors `task.error[0..1]`, the two pixel
errors `cog.u - u0` and `cog.v - v0`, the two measured derivatives
`dedt_mes[0..1]` and the two filtered derivatives `dedt_filt[0..1]`; and every
line written by an execution of the loop has 15 values. -/
theorem diagnostics_record {R K : Type} [Field R] (ops : KalmanOps R K)
    (cfg : LoopConfig R) (st : LoopState R K) (inp : IterInput R)
    (iters : List (IterOutcome R)) :
    (loopBody ops cfg st inp).2.record =
      [(inp.t_0 - st.t_1) / 1000,
       (loopBody ops cfg st inp).2.command 0, (loopBody ops cfg st inp).2.command 1,
       (loopBody ops cfg st inp).2.command 2, (loopBody ops cfg st inp).2.command 3,
       (loopBody ops cfg st inp).2.command 4, (loopBody ops cfg st inp).2.command 5,
       inp.claw.error 0, inp.claw.error 1,
       inp.cog_u - cfg.u0, inp.cog_v - cfg.v0,
       (loopBody ops cfg st inp).2.dedt_mes 0, (loopBody ops cfg st inp).2.dedt_mes 1,
       (loopBody ops cfg st inp).2.dedt_filt 0, (loopBody ops cfg st inp).2.dedt_filt 1] ∧
    (loopBody ops cfg st inp).2.Tv_0 = (inp.t_0 - st.t_1) / 1000 ∧
    (loopBody ops cfg st inp).1.task.error = inp.claw.error ∧
    (loopBody ops cfg st inp).2.record.length = 15 ∧
    recordsOf (iterEvents (loopBody ops cfg st inp).2) = [(loopBody ops cfg st inp).2.record] ∧
    (recordsOf (runLoop ops cfg st iters).1).all (fun r => decide (r.length = 15)) = true := by
  refine ⟨rfl, rfl, rfl, rfl, recordsOf_iterEvents _, ?_⟩
  rw [List.all_eq_true]
  intro r hr
  simpa using runLoop_records_length ops cfg iters st r hr

/-! ## Claims about the gain and the conversion -/

/-- C9, as stated, fails: with `gain0 = 4 > gainInfinity = 1/5` and the slope
parameter `-40` the gain at error norm 1 exceeds the gain at 0, so it is not
non-increasing; and with slope parameter `0` the gain is constantly 4 and does
not converge to `gainInfinity`. -/
theorem gain_profile_counterexample :
    ((1 / 5 : ℝ) < 4) ∧
    ¬ ((setLambda (4 : ℝ) (1 / 5) (-40)).value Real.exp 1
        ≤ (setLambda (4 : ℝ) (1 / 5) (-40)).value Real.exp 0) ∧
    ¬ Filter.Tendsto (fun x => (setLambda (4 : ℝ) (1 / 5) 0).value Real.exp x)
        Filter.atTop (nhds (1 / 5)) := by
  refine ⟨by norm_num, ?_, ?_⟩
  · simp only [setLambda, initStandard, GainProfile.value]
    have h1 : (1 : ℝ) < Real.exp (- -40 * 1 / (4 - 1 / 5)) := by
      rw [Real.one_lt_exp_iff]; norm_num
    have h0 : Real.exp (- -40 * 0 / (4 - 1 / 5 : ℝ)) = 1 := by
      rw [show (- -40 * 0 / (4 - 1 / 5 : ℝ)) = 0 by norm_num, Real.exp_zero]
    rw [h0]
    intro hle
    have hpos : (0 : ℝ) < 4 - 1 / 5 := by norm_num
    nlinarith
  · intro hlim
    have hconst : (fun x : ℝ => (setLambda (4 : ℝ) (1 / 5) 0).value Real.exp x)
        = fun _ => (4 : ℝ) := by
      funext x
      simp only [setLambda, initStandard, GainProfile.value]
      rw [show (-(0 : ℝ) * x / (4 - 1 / 5)) = 0 by simp, Real.exp_zero]
      norm_num
    rw [hconst] at hlim
    have h4 := tendsto_nhds_unique hlim (tendsto_const_nhds)
    norm_num at h4

/-- C9, amended.  For the profile set by `setLambda(gain0, gainInfinity, slope)`
with `gain0 > gainInfinity`: the gain equals `gain0` at error norm 0; if
`slope >= 0` it is non-increasing in the error norm on `[0, ∞)`; if `slope > 0`
it converges to `gainInfinity` as the error norm tends to infinity. -/
theorem gain_profile_monotone_limit (gain0 gainInfinity slope : ℝ)
    (hgain : gainInfinity < gain0) :
    (setLambda gain0 gainInfinity slope).value Real.exp 0 = gain0 ∧
    (0 ≤ slope → ∀ x y : ℝ, 0 ≤ x → x ≤ y →
      (setLambda gain0 gainInfinity slope).value Real.exp y
        ≤ (setLambda gain0 gainInfinity slope).value Real.exp x) ∧
    (0 < slope →
      Filter.Tendsto (fun x => (setLambda gain0 gainInfinity slope).value Real.exp x)
        Filter.atTop (nhds gainInfinity)) := by
  have hpos : 0 < gain0 - gainInfinity := sub_pos.mpr hgain
  refine ⟨?_, ?_, ?_⟩
  · simp [setLambda, initStandard, GainProfile.value]
  · intro hs x y _ hxy
    simp only [setLambda, initStandard, GainProfile.value]
    have harg : -slope * y / (gain0 - gainInfinity) ≤ -slope * x / (gain0 - gainInfinity) := by
      apply div_le_div_of_nonneg_right _ hpos.le
      nlinarith
    have hexp := Real.exp_le_exp.mpr harg
    have := mul_le_mul_of_nonneg_left hexp hpos.le
    linarith
  · intro hs
    simp only [setLambda, initStandard, GainProfile.value]
    have hc : -(slope / (gain0 - gainInfinity)) < 0 := by
      have : 0 < slope / (gain0 - gainInfinity) := div_pos hs hpos
      linarith
    have harg : Filter.Tendsto (fun x : ℝ => -slope * x / (gain0 - gainInfinity))
        Filter.atTop Filter.atBot := by
      have h := Filter.Tendsto.const_mul_atTop_of_neg hc (Filter.tendsto_id)
      refine h.congr ?_
      intro x
      simp only [id]
      field_simp
    have hexp := Real.tendsto_exp_atBot.comp harg
    have hmul := hexp.const_mul (gain0 - gainInfinity)
    have hadd := hmul.add_const gainInfinity
    simpa using hadd

/-- Witness of the amended C9 at the example's configuration
`initStandard(4, 0.2, 40)`. -/
theorem gain_profile_monotone_limit_witness :
    ((2 / 10 : ℝ) < 4) ∧
    (setLambda (4 : ℝ) (2 / 10) 40).value Real.exp 0 = 4 ∧
    (setLambda (4 : ℝ) (2 / 10) 40) = exampleGain ∧
    ((setLambda (4 : ℝ) (2 / 10) 40).value Real.exp 1
        ≤ (setLambda (4 : ℝ) (2 / 10) 40).value Real.exp 0) ∧
    Filter.Tendsto (fun x => (setLambda (4 : ℝ) (2 / 10) 40).value Real.exp x)
        Filter.atTop (nhds (2 / 10)) :=
  have h : (2 / 10 : ℝ) < 4 := by norm_num
  ⟨h, (gain_profile_monotone_limit 4 (2 / 10) 40 h).1, rfl,
    (gain_profile_monotone_limit 4 (2 / 10) 40 h).2.1 (by norm_num) 0 1 (le_refl 0)
      (by norm_num),
    (gain_profile_monotone_limit 4 (2 / 10) 40 h).2.2 (by norm_num)⟩

/-- C10.  For every camera and every normalized point `(x, y)`, `convertPoint`
returns `u = x*px + u0`, `v = y*py + v0` when the projection model is
perspective without distortion, and `u = x*px*(1 + kud*r^2) + u0`,
`v = y*py*(1 + kud*r^2) + v0` with `r^2 = x^2 + y^2` when it is perspective
with distortion. -/
theorem convertPoint_formula {R : Type} [Field R] (cam : CameraParameters R) (x y : R) :
    convertPoint { cam with projModel := ProjModel.perspectiveProjWithoutDistortion } x y
      = (x * cam.px + cam.u0, y * cam.py + cam.v0) ∧
    convertPoint { cam with projModel := ProjModel.perspectiveProjWithDistortion } x y
      = (x * cam.px * (1 + cam.kud * (x ^ 2 + y ^ 2)) + cam.u0,
         y * cam.py * (1 + cam.kud * (x ^ 2 + y ^ 2)) + cam.v0) := by
  refine ⟨rfl, ?_⟩
  simp only [convertPoint, convertPointWithDistortion, Prod.mk.injEq]
  constructor <;> ring

/-! ## Facts about the image filter -/

theorem foldl_pair {α β ι : Type} (f : α → ι → α) (g : β → ι → β) (l : List ι) :
    ∀ (p : α × β),
      l.foldl (fun p x => (f p.1 x, g p.2 x)) p = (l.foldl f p.1, l.foldl g p.2) := by
  induction l with
  | nil => intro p; rfl
  | cons x rest ih => intro p; exact ih (f p.1 x, g p.2 x)

theorem foldl_add_eq_sum {R : Type} [Field R] (g : Nat → R) (n : Nat) (init : R) :
    (List.range n).foldl (fun acc a => acc + g a) init
      = init + Finset.sum (Finset.range n) g := by
  induction n with
  | zero => simp
  | succ k ih =>
    rw [List.range_succ, List.foldl_append, ih, Finset.sum_range_succ]
    simp [add_assoc]

/-- The accumulated value `conv_x` is the double sum over the kernel. -/
theorem convAt_eq_sum {T R : Type} [Field R] (toDouble : T → R) (I : Image T)
    (M : VpMatrix R) (size half_size i j : Nat) :
    convAt toDouble I M size half_size i j =
      Finset.sum (Finset.range size) (fun a =>
        Finset.sum (Finset.range size) (fun b =>
          M.entry a b
            * toDouble (I.data (uadd (usub i half_size) a) (uadd (usub j half_size) b)))) := by
  unfold convAt
  have inner : ∀ (conv_x : R) (a : Nat),
      (List.range size).foldl
        (fun conv_x b =>
          conv_x + M.entry a b
            * toDouble (I.data (uadd (usub i half_size) a) (uadd (usub j half_size) b)))
        conv_x
      = conv_x + Finset.sum (Finset.range size) (fun b =>
          M.entry a b
            * toDouble (I.data (uadd (usub i half_size) a) (uadd (usub j half_size) b))) :=
    fun conv_x a => foldl_add_eq_sum _ size conv_x
  simp only [inner]
  rw [foldl_add_eq_sum, zero_add]

theorem Image.set_height {R : Type} (If : Image R) (i j : Nat) (x : R) :
    (If.set i j x).height = If.height := rfl

theorem Image.set_width {R : Type} (If : Image R) (i j : Nat) (x : R) :
    (If.set i j x).width = If.width := rfl

/-- Effect of one row loop (the loop on `j`) on the pixels. -/
theorem foldl_set_data {R : Type} (f : Nat → R) (i : Nat) (L : List Nat) :
    ∀ (If : Image R) (i' j' : Nat),
      (L.foldl (fun If j => If.set i j (f j)) If).data i' j'
        = if i' = i ∧ j' ∈ L then f j' else If.data i' j' := by
  induction L with
  | nil => intro If i' j'; simp
  | cons j rest ih =>
    intro If i' j'
    rw [List.foldl_cons, ih]
    by_cases h1 : i' = i ∧ j' ∈ rest
    · have h2 : i' = i ∧ j' ∈ j :: rest := ⟨h1.1, List.mem_cons_of_mem _ h1.2⟩
      rw [if_pos h1, if_pos h2]
    · rw [if_neg h1]
      by_cases h3 : i' = i ∧ j' = j
      · have h2 : i' = i ∧ j' ∈ j :: rest := ⟨h3.1, by rw [h3.2]; exact List.mem_cons_self _ _⟩
        rw [if_pos h2]
        simp [Image.set, h3]
      · have h2 : ¬ (i' = i ∧ j' ∈ j :: rest) := by
          rintro ⟨hi, hj⟩
          rcases List.mem_cons.mp hj with hj | hj
          · exact h3 ⟨hi, hj⟩
          · exact h1 ⟨hi, hj⟩
        rw [if_neg h2]
        simp [Image.set, h3]

theorem foldl_set_size {R : Type} (f : Nat → R) (i : Nat) (L : List Nat) :
    ∀ (If : Image R),
      (L.foldl (fun If j => If.set i j (f j)) If).height = If.height ∧
      (L.foldl (fun If j => If.set i j (f j)) If).width = If.width := by
  induction L with
  | nil => intro If; exact ⟨rfl, rfl⟩
  | cons j rest ih => intro If; rw [List.foldl_cons]; exact ih _

/-- Effect of the two pixel loops on the pixels. -/
theorem foldl_rows_data {R : Type} (f : Nat → Nat → R) (Lj : List Nat) (Li : List Nat) :
    ∀ (If : Image R) (i' j' : Nat),
      (Li.foldl (fun If i => Lj.foldl (fun If j => If.set i j (f i j)) If) If).data i' j'
        = if i' ∈ Li ∧ j' ∈ Lj then f i' j' else If.data i' j' := by
  induction Li with
  | nil => intro If i' j'; simp
  | cons i rest ih =>
    intro If i' j'
    rw [List.foldl_cons, ih, foldl_set_data (f i) i Lj If i' j']
    by_cases h1 : i' ∈ rest ∧ j' ∈ Lj
    · have h2 : i' ∈ i :: rest ∧ j' ∈ Lj := ⟨List.mem_cons_of_mem _ h1.1, h1.2⟩
      rw [if_pos h1, if_pos h2]
    · rw [if_neg h1]
      by_cases h3 : i' = i ∧ j' ∈ Lj
      · have h2 : i' ∈ i :: rest ∧ j' ∈ Lj := ⟨by rw [h3.1]; exact List.mem_cons_self _ _, h3.2⟩
        rw [if_pos h3, if_pos h2, h3.1]
      · have h2 : ¬ (i' ∈ i :: rest ∧ j' ∈ Lj) := by
          rintro ⟨hi, hj⟩
          rcases List.mem_cons.mp hi with hi | hi
          · exact h3 ⟨hi, hj⟩
          · exact h1 ⟨hi, hj⟩
        rw [if_neg h3, if_neg h2]

theorem foldl_rows_size {R : Type} (f : Nat → Nat → R) (Lj : List Nat) (Li : List Nat) :
    ∀ (If : Image R),
      (Li.foldl (fun If i => Lj.foldl (fun If j => If.set i j (f i j)) If) If).height
        = If.height ∧
      (Li.foldl (fun If i => Lj.foldl (fun If j => If.set i j (f i j)) If) If).width
        = If.width := by
  induction Li with
  | nil => intro If; exact ⟨rfl, rfl⟩
  | cons i rest ih =>
    intro If
    rw [List.foldl_cons]
    have h := ih (Lj.foldl (fun If j => If.set i j (f i j)) If)
    have h' := foldl_set_size (f i) i Lj If
    exact ⟨h.1.trans h'.1, h.2.trans h'.2⟩

/-- The pixels of the filtered image: the accumulated value on the pixels
visited by the two loops, zero elsewhere. -/
theorem filter_data {T R : Type} [Field R] (toDouble : T → R) (I : Image T)
    (M : VpMatrix R) (i j : Nat) :
    (filter toDouble I M).data i j =
      if i ∈ List.range' (M.rows / 2) (usub I.height (M.rows / 2) - M.rows / 2) ∧
         j ∈ List.range' (M.rows / 2) (usub I.width (M.rows / 2) - M.rows / 2)
      then convAt toDouble I M M.rows (M.rows / 2) i j else 0 := by
  unfold filter
  exact foldl_rows_data (fun i j => convAt toDouble I M M.rows (M.rows / 2) i j) _ _ _ i j

theorem filter_size {T R : Type} [Field R] (toDouble : T → R) (I : Image T)
    (M : VpMatrix R) :
    (filter toDouble I M).height = I.height ∧ (filter toDouble I M).width = I.width := by
  unfold filter
  exact foldl_rows_size (fun i j => convAt toDouble I M M.rows (M.rows / 2) i j) _ _ _

theorem usub_of_le {a b : Nat} (hb : b ≤ a) (ha : a < UNSIGNED_RANGE) : usub a b = a - b := by
  unfold usub
  unfold UNSIGNED_RANGE at ha ⊢
  omega

theorem uadd_of_lt {a b : Nat} (h : a + b < UNSIGNED_RANGE) : uadd a b = a + b := by
  unfold uadd
  unfold UNSIGNED_RANGE at h ⊢
  omega

/-- The rows (or columns) visited by a pixel loop of `filter` when the image is
at least `half_size` high (or wide). -/
theorem mem_loop_range (n half_size i : Nat) (hn : n < UNSIGNED_RANGE) (hh : half_size ≤ n) :
    i ∈ List.range' half_size (usub n half_size - half_size)
      ↔ half_size ≤ i ∧ i < n - half_size := by
  rw [usub_of_le hh hn, List.mem_range'_1]
  omega

/-- The filtered image, pixel by pixel, for an image at least `half_size` high
and wide. -/
theorem filter_spec {T R : Type} [Field R] (toDouble : T → R) (I : Image T)
    (M : VpMatrix R) (hH : I.height < UNSIGNED_RANGE) (hW : I.width < UNSIGNED_RANGE)
    (hh : M.rows / 2 ≤ I.height) (hw : M.rows / 2 ≤ I.width) (i j : Nat) :
    (filter toDouble I M).data i j =
      if M.rows / 2 ≤ i ∧ i < I.height - M.rows / 2 ∧
         M.rows / 2 ≤ j ∧ j < I.width - M.rows / 2
      then Finset.sum (Finset.range M.rows) (fun a =>
        Finset.sum (Finset.range M.rows) (fun b =>
          M.entry a b * toDouble (I.data (i - M.rows / 2 + a) (j - M.rows / 2 + b))))
      else 0 := by
  rw [filter_data]
  have hmi := mem_loop_range I.height (M.rows / 2) i hH hh
  have hmj := mem_loop_range I.width (M.rows / 2) j hW hw
  by_cases hin : M.rows / 2 ≤ i ∧ i < I.height - M.rows / 2 ∧
      M.rows / 2 ≤ j ∧ j < I.width - M.rows / 2
  · have hin' : i ∈ List.range' (M.rows / 2) (usub I.height (M.rows / 2) - M.rows / 2) ∧
        j ∈ List.range' (M.rows / 2) (usub I.width (M.rows / 2) - M.rows / 2) :=
      ⟨hmi.mpr ⟨hin.1, hin.2.1⟩, hmj.mpr hin.2.2⟩
    rw [if_pos hin, if_pos hin', convAt_eq_sum]
    have hi : usub i (M.rows / 2) = i - M.rows / 2 := by
      apply usub_of_le hin.1
      unfold UNSIGNED_RANGE at hH ⊢
      omega
    have hj : usub j (M.rows / 2) = j - M.rows / 2 := by
      apply usub_of_le hin.2.2.1
      unfold UNSIGNED_RANGE at hW ⊢
      omega
    rw [hi, hj]
    apply Finset.sum_congr rfl
    intro a ha
    apply Finset.sum_congr rfl
    intro b hb
    rw [Finset.mem_range] at ha hb
    have ha' : uadd (i - M.rows / 2) a = i - M.rows / 2 + a := by
      apply uadd_of_lt
      unfold UNSIGNED_RANGE at hH ⊢
      omega
    have hb' : uadd (j - M.rows / 2) b = j - M.rows / 2 + b := by
      apply uadd_of_lt
      unfold UNSIGNED_RANGE at hW ⊢
      omega
    rw [ha', hb']
  · have hin' : ¬ (i ∈ List.range' (M.rows / 2) (usub I.height (M.rows / 2) - M.rows / 2) ∧
        j ∈ List.range' (M.rows / 2) (usub I.width (M.rows / 2) - M.rows / 2)) := by
      rintro ⟨h1, h2⟩
      exact hin ⟨(hmi.mp h1).1, (hmi.mp h1).2, hmj.mp h2⟩
    rw [if_neg hin, if_neg hin']

/-- The pair accumulated by the two-output filter at a pixel: the value
accumulated by the one-output filter with the kernel, and with the kernel read
with its two indices exchanged. -/
theorem convUV_eq {R : Type} [Field R] (I : Image R) (M : VpMatrix R)
    (size half_size v u : Nat) :
    convUV I M size half_size v u =
      (convAt (fun x => x) I M size half_size v u,
       convAt (fun x => x) I
         { rows := M.rows, cols := M.cols, entry := fun a b => M.entry b a }
         size half_size v u) := by
  unfold convUV convAt
  have inner : ∀ (a : Nat) (conv : R × R),
      (List.range size).foldl
        (fun (conv : R × R) b =>
          (conv.1 + M.entry a b
              * I.data (uadd (usub v half_size) a) (uadd (usub u half_size) b),
           conv.2 + M.entry b a
              * I.data (uadd (usub v half_size) a) (uadd (usub u half_size) b)))
        conv
      = ((List.range size).foldl
          (fun conv_x b => conv_x + M.entry a b
              * I.data (uadd (usub v half_size) a) (uadd (usub u half_size) b)) conv.1,
         (List.range size).foldl
          (fun conv_x b => conv_x + M.entry b a
              * I.data (uadd (usub v half_size) a) (uadd (usub u half_size) b)) conv.2) :=
    fun a conv =>
      foldl_pair
        (fun conv_x b => conv_x + M.entry a b
              * I.data (uadd (usub v half_size) a) (uadd (usub u half_size) b))
        (fun conv_x b => conv_x + M.entry b a
              * I.data (uadd (usub v half_size) a) (uadd (usub u half_size) b))
        (List.range size) conv
  simp only [inner]
  exact foldl_pair
    (fun conv_x a => (List.range size).foldl
      (fun conv_x b => conv_x + M.entry a b
              * I.data (uadd (usub v half_size) a) (uadd (usub u half_size) b)) conv_x)
    (fun conv_x a => (List.range size).foldl
      (fun conv_x b => conv_x + M.entry b a
              * I.data (uadd (usub v half_size) a) (uadd (usub u half_size) b)) conv_x)
    (List.range size) (0, 0)

/-- The two outputs of the two-output filter are one-output filter responses. -/
theorem filterUV_eq {R : Type} [Field R] (I : Image R) (M : VpMatrix R) :
    filterUV I M =
      (filter (fun x => x) I M,
       filter (fun x => x) I
         { rows := M.rows, cols := M.cols, entry := fun a b => M.entry b a }) := by
  unfold filterUV filter
  simp only [convUV_eq]
  have inner : ∀ (v : Nat) (Iuv : Image R × Image R),
      (List.range' (M.rows / 2) (usub I.width (M.rows / 2) - M.rows / 2)).foldl
        (fun (Iuv : Image R × Image R) u =>
          (Iuv.1.set v u (convAt (fun x => x) I M M.rows (M.rows / 2) v u),
           Iuv.2.set v u (convAt (fun x => x) I
              { rows := M.rows, cols := M.cols, entry := fun a b => M.entry b a }
              M.rows (M.rows / 2) v u)))
        Iuv
      = ((List.range' (M.rows / 2) (usub I.width (M.rows / 2) - M.rows / 2)).foldl
          (fun If u => If.set v u (convAt (fun x => x) I M M.rows (M.rows / 2) v u)) Iuv.1,
         (List.range' (M.rows / 2) (usub I.width (M.rows / 2) - M.rows / 2)).foldl
          (fun If u => If.set v u (convAt (fun x => x) I
              { rows := M.rows, cols := M.cols, entry := fun a b => M.entry b a }
              M.rows (M.rows / 2) v u)) Iuv.2) :=
    fun v Iuv =>
      foldl_pair
        (fun If u => If.set v u (convAt (fun x => x) I M M.rows (M.rows / 2) v u))
        (fun If u => If.set v u (convAt (fun x => x) I
              { rows := M.rows, cols := M.cols, entry := fun a b => M.entry b a }
              M.rows (M.rows / 2) v u))
        (List.range' (M.rows / 2) (usub I.width (M.rows / 2) - M.rows / 2)) Iuv
  simp only [inner]
  exact foldl_pair
    (fun If v => (List.range' (M.rows / 2) (usub I.width (M.rows / 2) - M.rows / 2)).foldl
      (fun If u => If.set v u (convAt (fun x => x) I M M.rows (M.rows / 2) v u)) If)
    (fun If v => (List.range' (M.rows / 2) (usub I.width (M.rows / 2) - M.rows / 2)).foldl
      (fun If u => If.set v u (convAt (fun x => x) I
              { rows := M.rows, cols := M.cols, entry := fun a b => M.entry b a }
              M.rows (M.rows / 2) v u)) If)
    (List.range' (M.rows / 2) (usub I.height (M.rows / 2) - M.rows / 2))
    (Image.zeros I.height I.width, Image.zeros I.height I.width)

theorem VpMatrix.t_of_square {R : Type} (M : VpMatrix R) (h : M.rows = M.cols) :
    M.t = { rows := M.rows, cols := M.cols, entry := fun a b => M.entry b a } := by
  simp [VpMatrix.t, h]

/-- The one-output filter only reads the kernel entries with both indices
below the number of rows. -/
theorem filter_congr_kernel {T R : Type} [Field R] (toDouble : T → R) (I : Image T)
    (M N : VpMatrix R) (hrows : M.rows = N.rows)
    (hentry : ∀ a b, a < M.rows → b < M.rows → M.entry a b = N.entry a b) :
    (filter toDouble I M).data = (filter toDouble I N).data := by
  funext i j
  rw [filter_data, filter_data, convAt_eq_sum, convAt_eq_sum, ← hrows]
  have hsum :
      Finset.sum (Finset.range M.rows) (fun a =>
        Finset.sum (Finset.range M.rows) (fun b =>
          M.entry a b * toDouble
            (I.data (uadd (usub i (M.rows / 2)) a) (uadd (usub j (M.rows / 2)) b))))
      = Finset.sum (Finset.range M.rows) (fun a =>
        Finset.sum (Finset.range M.rows) (fun b =>
          N.entry a b * toDouble
            (I.data (uadd (usub i (M.rows / 2)) a) (uadd (usub j (M.rows / 2)) b)))) := by
    apply Finset.sum_congr rfl
    intro a ha
    apply Finset.sum_congr rfl
    intro b hb
    rw [Finset.mem_range] at ha hb
    rw [hentry a b ha hb]
  rw [hsum]

theorem Image.eq_of_fields {T : Type} (A B : Image T) (hh : A.height = B.height)
    (hw : A.width = B.width) (hd : A.data = B.data) : A = B := by
  cases A
  cases B
  simp_all

theorem kalmanSwitch_of_none {R K : Type} [Zero R] (ops : KalmanOps R K)
    (cfg : LoopConfig R) (kalman : K) (m d : Fin nsignal → R)
    (h : cfg.opt_kalman = K_NONE) :
    kalmanSwitch ops cfg kalman m d = (kalman, 0, none) := by
  simp [kalmanSwitch, h]

theorem loopBody_out_filterArg {R K : Type} [Field R] (ops : KalmanOps R K)
    (cfg : LoopConfig R) (st : LoopState R K) (inp : IterInput R) :
    (loopBody ops cfg st inp).2.filterArg =
      (kalmanSwitch ops cfg st.kalman (loopBody ops cfg st inp).2.dedt_mes
        (if st.iter = 0 then 0 else st.dedt_filt)).2.2 := rfl

/-- The log line of iteration 0 of the sample run. -/
theorem sample_record_zero :
    (outputAt sampleOps sampleConfig sampleInit sampleInputs 0).record
      = [1, 1, 1, 1, 1, 1, 1, 0, 0, 1, 2, 0, 0, 0, 0] := by
  have hd : (outputAt sampleOps sampleConfig sampleInit sampleInputs 0).dedt_filt = 0 := by
    funext i
    show (loopBody sampleOps sampleConfig sampleInit (sampleInputs 0)).2.dedt_filt i = 0
    rw [loopBody_dedt_filt, kalmanSwitch_of_model _ _ _ _ _ (Or.inl rfl)]
    show extractFiltered _ _ _ i = 0
    rw [extractFiltered_apply,
      loopBody_dedt_mes_of_le_one sampleOps sampleConfig sampleInit _ (Nat.zero_le 1)]
    fin_cases i <;> simp [sampleOps, sampleConfig]
  have hv : (outputAt sampleOps sampleConfig sampleInit sampleInputs 0).command
      = fun _ => 1 := by
    show (loopBody sampleOps sampleConfig sampleInit (sampleInputs 0)).2.v1
        + (loopBody sampleOps sampleConfig sampleInit (sampleInputs 0)).2.v2 = _
    rw [loopBody_v2]
    have hd' : (loopBody sampleOps sampleConfig sampleInit (sampleInputs 0)).2.dedt_filt = 0 := hd
    rw [hd', Matrix.mulVec_zero, add_zero]
    rfl
  have hm : (outputAt sampleOps sampleConfig sampleInit sampleInputs 0).dedt_mes = 0 :=
    loopBody_dedt_mes_of_le_one _ _ _ _ (Nat.zero_le 1)
  unfold outputAt at hd hv hm ⊢
  rw [loopBody_record]
  have hv' : (loopBody sampleOps sampleConfig (stateAt sampleOps sampleConfig sampleInit
      sampleInputs 0) (sampleInputs 0)).2.v = fun _ => 1 := hv
  rw [hv', hd, hm]
  simp [stateAt, loopBody, computeControlLaw, sampleInit, initState, sampleInputs, sampleConfig]
  norm_num

/-- The one-output filter gives the same image on two inputs whose pixels
convert to the same doubles. -/
theorem filter_congr_image {T S R : Type} [Field R] (f : T → R) (g : S → R)
    (I : Image T) (J : Image S) (M : VpMatrix R) (hh : I.height = J.height)
    (hw : I.width = J.width) (hd : ∀ i j, f (I.data i j) = g (J.data i j)) :
    filter f I M = filter g J M := by
  apply Image.eq_of_fields
  · rw [(filter_size f I M).1, (filter_size g J M).1, hh]
  · rw [(filter_size f I M).2, (filter_size g J M).2, hw]
  · funext i j
    rw [filter_data, filter_data, convAt_eq_sum, convAt_eq_sum, hh, hw]
    simp only [hd]

theorem filter_congr {T R : Type} [Field R] (toDouble : T → R) (I : Image T)
    (M N : VpMatrix R) (hrows : M.rows = N.rows)
    (hentry : ∀ a b, a < M.rows → b < M.rows → M.entry a b = N.entry a b) :
    filter toDouble I M = filter toDouble I N := by
  apply Image.eq_of_fields
  · rw [(filter_size toDouble I M).1, (filter_size toDouble I N).1]
  · rw [(filter_size toDouble I M).2, (filter_size toDouble I N).2]
  · exact filter_congr_kernel toDouble I M N hrows hentry

theorem loopBody_divisor {R K : Type} [Field R] (ops : KalmanOps R K) (cfg : LoopConfig R)
    (st : LoopState R K) (inp : IterInput R) :
    (loopBody ops cfg st inp).2.divisor = if st.iter = 0 then none else some st.Tv_0 := rfl

theorem loopBody_out_Tv_1 {R K : Type} [Field R] (ops : KalmanOps R K) (cfg : LoopConfig R)
    (st : LoopState R K) (inp : IterInput R) :
    (loopBody ops cfg st inp).2.Tv_1 = st.Tv_0 := rfl

/-- From iteration 1 on, the division of line 438 is executed and its divisor
is the loop time measured by the previous iteration. -/
theorem outputAt_succ_divisor {R K : Type} [Field R] (ops : KalmanOps R K)
    (cfg : LoopConfig R) (t_init : R) (task : ServoTask R) (kalman : K)
    (ins : Nat → IterInput R) (t : Nat) :
    (outputAt ops cfg (initState t_init task kalman) ins (t + 1)).divisor
      = some (outputAt ops cfg (initState t_init task kalman) ins t).Tv := by
  have h : (stateAt ops cfg (initState t_init task kalman) ins (t + 1)).iter ≠ 0 := by
    rw [stateAt_iter]; omega
  unfold outputAt
  rw [loopBody_divisor, if_neg h]
  rfl

theorem outputAt_succ_Tv {R K : Type} [Field R] (ops : KalmanOps R K)
    (cfg : LoopConfig R) (st0 : LoopState R K) (ins : Nat → IterInput R) (t : Nat) :
    (outputAt ops cfg st0 ins (t + 1)).Tv = ((ins (t + 1)).t_0 - (ins t).t_0) / 1000 := rfl

theorem sampleInputs_increasing (t : Nat) :
    (sampleInputs t).t_0 < (sampleInputs (t + 1)).t_0 := by
  simp [sampleInputs]

/-! ## Claims about the log file, the filter selection and the loop time -/

/-- C11.  The log line written by an iteration never has the 20 values
announced by the comment of lines 202-207 (6 computed velocities, 6 measured
joint velocities, 6 measured joint positions, 2 values of `s - s*`): it always
has 15 values, the first being the loop time, and on iteration 0 of the sample
run it is `1 1 1 1 1 1 1 0 0 1 2 0 0 0 0`. -/
theorem log_line_has_fifteen_values {R K : Type} [Field R] (ops : KalmanOps R K)
    (cfg : LoopConfig R) (st : LoopState R K) (inp : IterInput R) :
    (loopBody ops cfg st inp).2.record.length = 15 ∧
    (loopBody ops cfg st inp).2.record.length ≠ 20 ∧
    (loopBody ops cfg st inp).2.record.head? = some ((inp.t_0 - st.t_1) / 1000) ∧
    recordsOf (iterEvents (loopBody ops cfg st inp).2) = [(loopBody ops cfg st inp).2.record] ∧
    (outputAt sampleOps sampleConfig sampleInit sampleInputs 0).record
      = [1, 1, 1, 1, 1, 1, 1, 0, 0, 1, 2, 0, 0, 0, 0] := by
  refine ⟨rfl, ?_, rfl, recordsOf_iterEvents _, sample_record_zero⟩
  rw [loopBody_record_length]
  decide

/-- C12.  With the estimator selection `K_NONE`, the filter is not initialised
before the loop and, in every iteration, `kalman.filter` is not called (the
filter object is unchanged and the iteration has no filter event), `dedt_filt`
is the zero vector, the feed-forward term `v2 = -J1p * dedt_filt` is zero, and
the commanded velocity equals the primary velocity `v1` returned by
`computeControlLaw()`. -/
theorem no_compensation_without_filter {R K : Type} [Field R] (ops : KalmanOps R K)
    (cfg : LoopConfig R) (st : LoopState R K) (inp : IterInput R)
    (hnone : cfg.opt_kalman = K_NONE) :
    (loopBody ops cfg st inp).2.filterArg = none ∧
    (loopBody ops cfg st inp).1.kalman = st.kalman ∧
    filterEvents (loopBody ops cfg st inp).2 = [] ∧
    (loopBody ops cfg st inp).2.dedt_filt = 0 ∧
    (loopBody ops cfg st inp).2.v2 = 0 ∧
    (loopBody ops cfg st inp).2.command = (loopBody ops cfg st inp).2.v1 ∧
    (loopBody ops cfg st inp).2.command = inp.claw.v1 ∧
    kalmanInit ops K_NONE = (ops.fresh, 0) := by
  have hfa : (loopBody ops cfg st inp).2.filterArg = none := by
    rw [loopBody_out_filterArg, kalmanSwitch_of_none ops cfg _ _ _ hnone]
  have hd : (loopBody ops cfg st inp).2.dedt_filt = 0 := by
    rw [loopBody_dedt_filt, kalmanSwitch_of_none ops cfg _ _ _ hnone]
  have hv2 : (loopBody ops cfg st inp).2.v2 = 0 := by
    rw [loopBody_v2, hd, Matrix.mulVec_zero]
  have hc : (loopBody ops cfg st inp).2.command = (loopBody ops cfg st inp).2.v1 := by
    show (loopBody ops cfg st inp).2.v1 + (loopBody ops cfg st inp).2.v2 = _
    rw [hv2, add_zero]
  refine ⟨hfa, ?_, ?_, hd, hv2, hc, hc.trans rfl, ?_⟩
  · rw [loopBody_kalman, kalmanSwitch_of_none ops cfg _ _ _ hnone]
  · unfold filterEvents
    rw [hfa]
  · simp [kalmanInit, K_NONE, K_VELOCITY, K_ACCELERATION]

/-- Witness of C12 on the sample inputs with the configuration `K_NONE`. -/
theorem no_compensation_without_filter_witness :
    sampleConfigNone.opt_kalman = K_NONE ∧
    (loopBody sampleOps sampleConfigNone sampleInit (sampleInputs 2)).2.filterArg = none ∧
    (loopBody sampleOps sampleConfigNone sampleInit (sampleInputs 2)).2.dedt_filt = 0 ∧
    (loopBody sampleOps sampleConfigNone sampleInit (sampleInputs 2)).2.v2 = 0 ∧
    (loopBody sampleOps sampleConfigNone sampleInit (sampleInputs 2)).2.command
      = (sampleInputs 2).claw.v1 :=
  have h := no_compensation_without_filter sampleOps sampleConfigNone sampleInit
    (sampleInputs 2) rfl
  ⟨rfl, h.1, h.2.2.2.1, h.2.2.2.2.1, h.2.2.2.2.2.2.1⟩

/-- C13.  For an `unsigned char` image `I` of `H` rows and `W` columns (both
representable as `unsigned`) and a kernel `M` with `size` rows,
`half = size / 2`, `H >= half` and `W >= half`: the filtered image has `H` rows
and `W` columns; at every pixel `(i, j)` with `half <= i < H - half` and
`half <= j < W - half` it equals the sum over `0 <= a, b < size` of
`M[a][b] * I[i-half+a][j-half+b]`; every other pixel is 0. -/
theorem filter_interior_and_border {R : Type} [Field R] (I : Image UChar) (M : VpMatrix R)
    (hH : I.height < UNSIGNED_RANGE) (hW : I.width < UNSIGNED_RANGE)
    (hh : M.rows / 2 ≤ I.height) (hw : M.rows / 2 ≤ I.width) :
    (filterUChar I M).height = I.height ∧
    (filterUChar I M).width = I.width ∧
    (∀ i j, M.rows / 2 ≤ i → i < I.height - M.rows / 2 →
        M.rows / 2 ≤ j → j < I.width - M.rows / 2 →
        (filterUChar I M).data i j =
          Finset.sum (Finset.range M.rows) (fun a =>
            Finset.sum (Finset.range M.rows) (fun b =>
              M.entry a b
                * (((I.data (i - M.rows / 2 + a) (j - M.rows / 2 + b)).val : Nat) : R)))) ∧
    (∀ i j, ¬ (M.rows / 2 ≤ i ∧ i < I.height - M.rows / 2 ∧
               M.rows / 2 ≤ j ∧ j < I.width - M.rows / 2) →
        (filterUChar I M).data i j = 0) := by
  refine ⟨(filter_size _ I M).1, (filter_size _ I M).2, ?_, ?_⟩
  · intro i j h1 h2 h3 h4
    unfold filterUChar
    rw [filter_spec _ I M hH hW hh hw, if_pos ⟨h1, h2, h3, h4⟩]
  · intro i j hout
    unfold filterUChar
    rw [filter_spec _ I M hH hW hh hw, if_neg hout]

/-- Witness of C13 on the sample 4 x 5 image and the sample 3 x 3 kernel: the
size, the border pixel `(0, 2)` and the interior pixel `(1, 2)`, whose value is
`3 * (3*3 - 1*1) = 24`. -/
theorem filter_interior_and_border_witness :
    sampleImageUChar.height < UNSIGNED_RANGE ∧ sampleImageUChar.width < UNSIGNED_RANGE ∧
    sampleKernel.rows / 2 ≤ sampleImageUChar.height ∧
    sampleKernel.rows / 2 ≤ sampleImageUChar.width ∧
    (filterUChar sampleImageUChar sampleKernel).height = 4 ∧
    (filterUChar sampleImageUChar sampleKernel).width = 5 ∧
    (filterUChar sampleImageUChar sampleKernel).data 0 2 = 0 ∧
    (filterUChar sampleImageUChar sampleKernel).data 1 2 = 24 :=
  have hH : sampleImageUChar.height < UNSIGNED_RANGE := by decide
  have hW : sampleImageUChar.width < UNSIGNED_RANGE := by decide
  have hh : sampleKernel.rows / 2 ≤ sampleImageUChar.height := by decide
  have hw : sampleKernel.rows / 2 ≤ sampleImageUChar.width := by decide
  have h := filter_interior_and_border sampleImageUChar sampleKernel hH hW hh hw
  have h12 : (filterUChar sampleImageUChar sampleKernel).data 1 2 = 24 := by
    rw [h.2.2.1 1 2 (by decide) (by decide) (by decide) (by decide)]
    simp [Finset.sum_range_succ, sampleKernel, sampleImageUChar, Fin.ofNat]
    norm_num
  ⟨hH, hW, hh, hw, h.1, h.2.1, h.2.2.2 0 2 (by decide), h12⟩

/-- C14.  For every image of doubles and every square kernel `M`, the first
output `Iu` of the two-output filter is the one-output filter response of the
image with `M` and the second output `Iv` is the one-output filter response
with the transpose of `M`, as whole images (size and every pixel, the zeroed
border included); the same holds against the `unsigned char` filter for an
`unsigned char` image with the same size and pixel values; and `Iu = Iv` when
`M` is symmetric. -/
theorem filterUV_is_pair_of_filters {R : Type} [Field R] (I : Image R) (M : VpMatrix R)
    (hsq : M.rows = M.cols) :
    (filterUV I M).1 = filter (fun x => x) I M ∧
    (filterUV I M).2 = filter (fun x => x) I M.t ∧
    (∀ I8 : Image UChar, I8.height = I.height → I8.width = I.width →
        (∀ i j, (((I8.data i j).val : Nat) : R) = I.data i j) →
        (filterUV I M).1 = filterUChar I8 M ∧ (filterUV I M).2 = filterUChar I8 M.t) ∧
    ((∀ a b, a < M.rows → b < M.rows → M.entry a b = M.entry b a) →
        (filterUV I M).1 = (filterUV I M).2) := by
  have hu : (filterUV I M).1 = filter (fun x => x) I M := by rw [filterUV_eq]
  have hv : (filterUV I M).2 = filter (fun x => x) I M.t := by
    rw [filterUV_eq, M.t_of_square hsq]
  refine ⟨hu, hv, ?_, ?_⟩
  · intro I8 h8h h8w h8d
    constructor
    · rw [hu]
      exact (filter_congr_image _ _ I8 I M h8h h8w h8d).symm
    · rw [hv]
      exact (filter_congr_image _ _ I8 I M.t h8h h8w h8d).symm
  · intro hsym
    rw [hu, hv]
    exact filter_congr _ I M M.t hsq hsym

/-- Witness of C14 on the sample image and the sample 3 x 3 kernel. -/
theorem filterUV_is_pair_of_filters_witness :
    sampleKernel.rows = sampleKernel.cols ∧
    (filterUV sampleImage sampleKernel).1 = filter (fun x => x) sampleImage sampleKernel ∧
    (filterUV sampleImage sampleKernel).2 = filter (fun x => x) sampleImage sampleKernel.t :=
  have h := filterUV_is_pair_of_filters sampleImage sampleKernel rfl
  ⟨rfl, h.1, h.2.1⟩

/-- C15, as stated, fails on the sample inputs when the time read before the loop
equals the time read at the top of iteration 0 (both 1000 ms): the times read
at the iteration starts are strictly increasing, yet iteration 1 executes the
division with the divisor 0. -/
theorem divisor_positive_counterexample :
    (∀ t, (sampleInputs t).t_0 < (sampleInputs (t + 1)).t_0) ∧
    (outputAt sampleOps sampleConfig (initState 1000 ServoTask.init [0, 0, 0, 0])
        sampleInputs 1).divisor = some 0 ∧
    ¬ ((0 : ℚ) < 0) := by
  refine ⟨sampleInputs_increasing, ?_, lt_irrefl 0⟩
  rw [outputAt_succ_divisor]
  simp [outputAt, stateAt, loopBody_out_Tv, initState, sampleInputs]

/-- C15, amended.  In iteration 0 the division of line 438 is not executed and
`Tv_1` is the placeholder 0; in every iteration `t + 1` the division is
executed and its divisor `Tv_1` is the loop time measured by iteration `t`
(for `t = 0` the time read at the top of iteration 0 minus the time read before
the loop, otherwise the difference of the times read at the tops of iterations
`t` and `t - 1`, in seconds).  If the times read at successive iteration starts
are strictly increasing, the divisor is strictly positive in every iteration
from 2 on; if moreover the time read before the loop is smaller than the time
read at the top of iteration 0, it is strictly positive in every iteration in
which the division is executed. -/
theorem divisor_is_previous_loop_time {R K : Type} [LinearOrderedField R]
    (ops : KalmanOps R K) (cfg : LoopConfig R) (t_init : R) (task : ServoTask R)
    (kalman : K) (ins : Nat → IterInput R) :
    (outputAt ops cfg (initState t_init task kalman) ins 0).divisor = none ∧
    (outputAt ops cfg (initState t_init task kalman) ins 0).Tv_1 = 0 ∧
    (∀ t, (outputAt ops cfg (initState t_init task kalman) ins (t + 1)).divisor
            = some (outputAt ops cfg (initState t_init task kalman) ins t).Tv ∧
          (outputAt ops cfg (initState t_init task kalman) ins (t + 1)).Tv_1
            = (outputAt ops cfg (initState t_init task kalman) ins t).Tv) ∧
    (outputAt ops cfg (initState t_init task kalman) ins 0).Tv
        = ((ins 0).t_0 - t_init) / 1000 ∧
    (∀ t, (outputAt ops cfg (initState t_init task kalman) ins (t + 1)).Tv
        = ((ins (t + 1)).t_0 - (ins t).t_0) / 1000) ∧
    ((∀ t, (ins t).t_0 < (ins (t + 1)).t_0) →
      ∀ t d, (outputAt ops cfg (initState t_init task kalman) ins (t + 2)).divisor = some d →
        0 < d) ∧
    (t_init < (ins 0).t_0 → (∀ t, (ins t).t_0 < (ins (t + 1)).t_0) →
      ∀ t d, (outputAt ops cfg (initState t_init task kalman) ins t).divisor = some d →
        0 < d) := by
  have hpos : ∀ a b : R, a < b → 0 < (b - a) / 1000 := fun a b hab =>
    div_pos (sub_pos.mpr hab) (by norm_num)
  have hsucc : ∀ t, 
      (∀ t, (ins t).t_0 < (ins (t + 1)).t_0) →
      ∀ d, (outputAt ops cfg (initState t_init task kalman) ins (t + 2)).divisor = some d →
        0 < d := by
    intro t hinc d hd
    rw [outputAt_succ_divisor, outputAt_succ_Tv] at hd
    rw [← Option.some.inj hd]
    exact hpos _ _ (hinc t)
  refine ⟨rfl, rfl, fun t => ⟨outputAt_succ_divisor ops cfg t_init task kalman ins t, rfl⟩,
    rfl, fun t => rfl, fun hinc t d hd => hsucc t hinc d hd, ?_⟩
  intro hinit hinc t d hd
  match t, hd with
  | 0, hd => exact absurd hd (by simp [outputAt, stateAt, loopBody_divisor, initState])
  | 1, hd =>
    rw [outputAt_succ_divisor] at hd
    rw [← Option.some.inj hd]
    exact hpos _ _ hinit
  | t + 2, hd => exact hsucc t hinc d hd

end Visp
